import Mathlib

/-!
Punto de Inicio: cash opening popup and session detail view.

A shallow embedding of the two OWL components of the `punto_inicio` add-on

* `static/src/app/cash_opening_popup.js` (`CashOpeningPopup`)
* `static/src/app/punto_inicio_app.js` (`PuntoInicioApp`)

together with the pieces of the JavaScript language they rely on
(Numbers, `parseInt`, `parseFloat`, Number::toString, `ToBoolean`,
`try`/`catch`, `await`).

Modelling decisions.

* A Number is an IEEE 754 double, kept as the exact fraction it is.  Every
  decimal or integer that is read is rounded to the nearest double, ties to
  even, by `roundToDouble`; where ECMAScript leaves the digits beyond the
  twentieth to the implementation, the exact value is rounded, as V8 does.
* A handler is a function of the component world (reactive state plus the
  log of effects performed so far).  An `async` method yields an `Async`
  tree: it runs up to its next `await`, where the world is visible to the
  rest of the page, and resumes with the settled result of the request and
  the world as it is at that moment.
* The collaborators (`orm`, `notification`, `window.location`, `console`,
  `window.confirm`, `props.close`) are not executed; every use is recorded
  as an `Effect`, and the answers of the backend are supplied by a `Server`.
* A rejected request carries an error object with a `message`.
-/

namespace PuntoInicio

/-! ## JavaScript Numbers -/

/-- A JavaScript Number, that is an IEEE 754 double: `NaN`, an infinity, or
the finite value `(-1)^negative * numerator / denominator`.  Every function
below yields finite Numbers in lowest terms, the denominator a power of two,
so that equal Numbers are equal terms: 42 is `finite false 42 1`, 12.5 is
`finite false 25 2`, and `finite true 0 1` is the negative zero. -/
inductive JSNumber where
  | nan
  | infinity (negative : Bool)
  | finite (negative : Bool) (numerator denominator : Nat)
  deriving DecidableEq

namespace JSNumber

/-- The Number `0`. -/
def zero : JSNumber := finite false 0 1

/-- ToBoolean on Numbers: `NaN`, `+0` and `-0` are falsy. -/
def toBoolean : JSNumber → Bool
  | nan => false
  | infinity _ => true
  | finite _ numerator _ => numerator != 0

/-- The expression `x || y` on Numbers. -/
def or (x y : JSNumber) : JSNumber := if x.toBoolean then x else y

/-- The Number is `+0` or `-0`. -/
def isZero : JSNumber → Bool
  | finite _ numerator _ => numerator == 0
  | _ => false

/-- The Number is neither `NaN` nor an infinity. -/
def isFinite : JSNumber → Bool
  | finite _ _ _ => true
  | _ => false

/-- The comparison `x < 0`. -/
def isNegative : JSNumber → Bool
  | nan => false
  | infinity negative => negative
  | finite negative numerator _ => negative && numerator != 0

/-- The comparison `x > 0`. -/
def isPositive : JSNumber → Bool
  | nan => false
  | infinity negative => !negative
  | finite negative numerator _ => !negative && numerator != 0

/-- The comparison `x >= 0`. -/
def isNonNegative : JSNumber → Bool
  | nan => false
  | infinity negative => !negative
  | finite negative numerator _ => !negative || numerator == 0

end JSNumber

/-- The power `2 ^ e` for `e ≥ 0`, and 1 for a negative `e`. -/
def pow2 (e : Int) : Nat := 1 <<< e.toNat

/-- Square-and-multiply, `fuel` bounding the number of halvings. -/
def powFast (b : Nat) : Nat → Nat → Nat
  | 0, _ => 1
  | fuel + 1, e =>
    if e = 0 then 1
    else if e % 2 = 0 then powFast b fuel (e / 2) * powFast b fuel (e / 2)
    else b * (powFast b fuel (e / 2) * powFast b fuel (e / 2))

/-- The power `10 ^ e`. -/
def pow10 (e : Nat) : Nat := powFast 10 e e

/-- The least `k`, counting from the one given, with `n < 2 ^ 2 ^ k`. -/
def log2Span (n : Nat) : Nat → Nat → Nat
  | 0, k => k
  | fuel + 1, k => if n < 1 <<< (1 <<< k) then k else log2Span n fuel (k + 1)

/-- Binary search for the leading bit of `n` among the positions
`r, …, r + 2 ^ j - 1`. -/
def log2Descend (n : Nat) : Nat → Nat → Nat
  | 0, r => r
  | j + 1, r =>
    if 1 <<< (r + 1 <<< j) ≤ n then log2Descend n j (r + 1 <<< j) else log2Descend n j r

/-- The position of the leading bit: `⌊log₂ n⌋` for `n > 0`. -/
def log2Floor (n : Nat) : Nat := log2Descend n (log2Span n n 0) 0

/-- The double nearest to `p / q` (for `q > 0`), ties to the even
significand, with the given sign.  With `t = ⌊log₂ (p / q)⌋`, the value is
scaled by `2^e`, `e = max (t - 52) (-1074)`, so that it lies below `2^53`,
and rounded to the integer `m`; the result is `m * 2^e`, or an infinity
from `2^1024` on. -/
def roundToDouble (negative : Bool) (p q : Nat) : JSNumber :=
  if p = 0 then JSNumber.finite negative 0 1
  else
    let l : Int := (log2Floor p : Int) - (log2Floor q : Int)
    let t : Int := if q * pow2 l ≤ p * pow2 (-l) then l else l - 1
    let e : Int := max (t - 52) (-1074)
    let n := p * pow2 (-e)
    let d := q * pow2 e
    let k := n / d
    let r := n % d
    let m := if 2 * r < d then k else if d < 2 * r then k + 1 else if k % 2 = 0 then k else k + 1
    if pow2 1024 ≤ m * pow2 e then JSNumber.infinity negative
    else
      let g := Nat.gcd (m * pow2 e) (pow2 (-e))
      JSNumber.finite negative (m * pow2 e / g) (pow2 (-e) / g)

/-! ## Number::toString -/

/-- The least `j`, counting from the one given, with `1 ≤ (a / b) * 10^(j+1)`:
the number of zeros after the decimal point of `a / b < 1`. -/
def leadingZeros (a b : Nat) : Nat → Nat → Nat
  | 0, j => j
  | fuel + 1, j => if b ≤ a * pow10 (j + 1) then j else leadingZeros a b fuel (j + 1)

/-- The number of digits of the integer part of `a / b` when that is not
zero, and otherwise minus the number of zeros after the decimal point: the
`n` with `10^(n-1) ≤ a / b < 10^n`, for `a > 0`. -/
def decimalPoint (a b : Nat) : Int :=
  if a / b = 0 then -(leadingZeros a b b 0 : Int)
  else ((Nat.toDigits 10 (a / b)).length : Int)

/-- The `k`-digit decimals `s * 10^(n-k)` next to `a / b`, below and above
(`n` being `decimalPoint a b`): those that read back as the double
`a / b`, the nearer first (the even one when they are as near). -/
def digitCandidates (a b k : Nat) : List Nat :=
  let c : Int := (k : Int) - decimalPoint a b
  let num := a * pow10 c.toNat
  let den := b * pow10 (-c).toNat
  let lo := num / den
  let r := num % den
  let readsBack := fun s : Nat =>
    decide (roundToDouble false (s * pow10 (-c).toNat) (pow10 c.toNat) = JSNumber.finite false a b)
  let ordered :=
    if 2 * r < den then [lo, lo + 1]
    else if den < 2 * r then [lo + 1, lo]
    else if lo % 2 = 0 then [lo, lo + 1] else [lo + 1, lo]
  ordered.filter readsBack

/-- The shortest digits that read back as the double `a / b`: the least
`k`, counting from the one given, with a candidate, and that candidate.
Seventeen digits always suffice; past the fuel the digits are cut off. -/
def shortestDigits (a b : Nat) : Nat → Nat → Nat × Nat
  | 0, k =>
    (k, a * pow10 ((k : Int) - decimalPoint a b).toNat /
      (b * pow10 (decimalPoint a b - k).toNat))
  | fuel + 1, k =>
    match digitCandidates a b k with
    | s :: _ => (k, s)
    | [] => shortestDigits a b fuel (k + 1)

/-- Steps 5 to 14 of Number::toString for the positive finite Number
`a / b`, with `k`, `s` and `n` as there (a candidate that reached `10^k`
is `10^(k-1)` one place higher). -/
def positiveToString (a b : Nat) : String :=
  let ks := shortestDigits a b 17 1
  let k := ks.1
  let carried := decide (ks.2 = pow10 k)
  let s := if carried then pow10 (k - 1) else ks.2
  let n : Int := if carried then decimalPoint a b + 1 else decimalPoint a b
  let digits := Nat.toDigits 10 s
  if (k : Int) ≤ n ∧ n ≤ 21 then String.mk (digits ++ List.replicate (n - k).toNat '0')
  else if 0 < n ∧ n ≤ 21 then String.mk (digits.take n.toNat ++ '.' :: digits.drop n.toNat)
  else if -6 < n ∧ n ≤ 0 then String.mk ('0' :: '.' :: List.replicate (-n).toNat '0' ++ digits)
  else
    let exponent := (if n - 1 < 0 then '-' else '+') :: Nat.toDigits 10 (n - 1).natAbs
    if k = 1 then String.mk (digits ++ 'e' :: exponent)
    else String.mk (digits.take 1 ++ '.' :: digits.drop 1 ++ 'e' :: exponent)

/-- Number::toString(x) in radix 10, the conversion a template literal
applies. -/
def numberToString : JSNumber → String
  | .nan => "NaN"
  | .infinity false => "Infinity"
  | .infinity true => "-Infinity"
  | .finite negative a b =>
    if a = 0 then "0" else (if negative then "-" else "") ++ positiveToString a b

/-! ## The global parsers -/

/-- WhiteSpace and LineTerminator code points, the ones `TrimString` removes. -/
def isWhiteSpace (c : Char) : Bool :=
  [0x9, 0xA, 0xB, 0xC, 0xD, 0x20, 0xA0, 0x1680, 0x2028, 0x2029, 0x202F, 0x205F,
    0x3000, 0xFEFF].contains c.toNat || (decide (0x2000 ≤ c.toNat) && decide (c.toNat ≤ 0x200A))

/-- TrimString(_, start). -/
def trimStart (s : List Char) : List Char := s.dropWhile isWhiteSpace

/-- The value of a character as a digit in some radix (`0-9`, `a-z`, `A-Z`). -/
def digitOf (c : Char) : Option Nat :=
  let n := c.toNat
  if 48 ≤ n ∧ n ≤ 57 then some (n - 48)
  else if 97 ≤ n ∧ n ≤ 122 then some (n - 87)
  else if 65 ≤ n ∧ n ≤ 90 then some (n - 55)
  else none

/-- Whether the character is a digit of the given radix. -/
def isRadixDigit (radix : Nat) (c : Char) : Bool :=
  match digitOf c with
  | some d => decide (d < radix)
  | none => false

/-- The integer written by a run of radix digits. -/
def radixValue (radix : Nat) (z : List Char) : Nat :=
  z.foldl (fun acc c => radix * acc + (digitOf c).getD 0) 0

/-- Removes one leading `+` or `-`. -/
def dropSign : List Char → List Char
  | '+' :: r => r
  | '-' :: r => r
  | s => s

/-- Whether the first character is `-`. -/
def hasMinus : List Char → Bool
  | '-' :: _ => true
  | _ => false

/-- ToString on a `string | null` value. -/
def toStringNullable : Option String → String
  | none => "null"
  | some s => s

/-- The radix `parseInt` reads in when it is given none, and the input
after the prefix: 16 after a leading `0x` or `0X`, else 10. -/
def stripPrefix : List Char → Nat × List Char
  | '0' :: 'x' :: r => (16, r)
  | '0' :: 'X' :: r => (16, r)
  | s => (10, s)

/-- The global `parseInt(string)` with no radix argument: the integer
written by the longest run of digits after white space, a sign and the
radix prefix, as a Number, or `NaN` when there is no digit. -/
def parseInt (inputString : String) : JSNumber :=
  let s := trimStart inputString.toList
  let rs := stripPrefix (dropSign s)
  let z := rs.2.takeWhile (isRadixDigit rs.1)
  if z.isEmpty then JSNumber.nan else roundToDouble (hasMinus s) (radixValue rs.1 z) 1

/-- Whether the character is a decimal digit. -/
def isDecimalDigit (c : Char) : Bool := isRadixDigit 10 c

/-- The optional ExponentPart at the head of the input: `e` or `E`, an
optional sign and at least one digit.  Returns the exponent it denotes. -/
def exponentPart : List Char → Int
  | c :: r =>
    if c = 'e' ∨ c = 'E' then
      let ds := (dropSign r).takeWhile isDecimalDigit
      if ds.isEmpty then 0
      else if hasMinus r then -(radixValue 10 ds : Int) else (radixValue 10 ds : Int)
    else 0
  | [] => 0

/-- The Number `(-1)^negative * digits * 10^exponent`. -/
def decimalToDouble (negative : Bool) (digits : Nat) (exponent : Int) : JSNumber :=
  roundToDouble negative (digits * pow10 exponent.toNat) (pow10 (-exponent).toNat)

/-- The longest prefix that is a StrUnsignedDecimalLiteral, as a Number. -/
def unsignedDecimal (negative : Bool) (s : List Char) : JSNumber :=
  if "Infinity".toList.isPrefixOf s then JSNumber.infinity negative
  else
    let intDigits := s.takeWhile isDecimalDigit
    let rest := s.dropWhile isDecimalDigit
    match rest with
    | '.' :: afterDot =>
      let fracDigits := afterDot.takeWhile isDecimalDigit
      if intDigits.isEmpty ∧ fracDigits.isEmpty then JSNumber.nan
      else
        decimalToDouble negative (radixValue 10 (intDigits ++ fracDigits))
          (exponentPart (afterDot.dropWhile isDecimalDigit) - (fracDigits.length : Int))
    | _ =>
      if intDigits.isEmpty then JSNumber.nan
      else decimalToDouble negative (radixValue 10 intDigits) (exponentPart rest)

/-- The global `parseFloat(string)`. -/
def parseFloat (inputString : String) : JSNumber :=
  let s := trimStart inputString.toList
  unsignedDecimal (hasMinus s) (dropSign s)

/-! ## Collaborators: values, effects, the backend, asynchronous handlers -/

/-- A thrown or rejected value: an error object, read only through `.message`. -/
structure JSError where
  message : String
  deriving DecidableEq

/-- A keyword-argument value sent to the backend. -/
inductive JSValue where
  | number (n : JSNumber)
  | string (s : String)
  deriving DecidableEq

/-- A `pos.session` record as returned by `searchRead` with the fields the
detail view asks for (`false` from the backend is `none`). -/
structure SessionRecord where
  id : JSNumber
  name : String
  config_id : Option (JSNumber × String)
  start_at : Option String
  state : String
  cash_register_balance_start : JSNumber
  deriving DecidableEq

/-- Everything a handler does to the outside of its component. -/
inductive Effect where
  | ormCall (model method : String) (ids : List JSNumber) (kwargs : List (String × JSValue))
  | ormSearchRead (model : String) (domain : List (String × String × JSNumber))
      (fields : List String)
  | notificationAdd (message type : String)
  | setLocation (url : String)
  | consoleError (label : String) (error : JSError)
  | windowConfirm (message : String)
  | propsClose
  deriving DecidableEq

namespace Effect

/-- A request to the backend. -/
def isRemoteCall : Effect → Bool
  | ormCall _ _ _ _ => true
  | ormSearchRead _ _ _ => true
  | _ => false

/-- A notification of the given type. -/
def isNotification (type : String) : Effect → Bool
  | notificationAdd _ t => t == type
  | _ => false

/-- An assignment to `window.location`. -/
def isNavigation : Effect → Bool
  | setLocation _ => true
  | _ => false

end Effect

/-- The reactive state of a component together with the effects performed so far. -/
structure World (σ : Type) where
  state : σ
  log : List Effect

/-- Records one more effect. -/
def World.emit {σ : Type} (w : World σ) (e : Effect) : World σ :=
  { w with log := w.log ++ [e] }

/-- The backend as seen through the `orm` service: each request settles
with a value or is rejected with an error. -/
structure Server where
  call : String → String → List JSNumber → List (String × JSValue) → Except JSError Unit
  searchRead : String → List (String × String × JSNumber) → List String →
    Except JSError (List SessionRecord)

/-- An `async` method in progress: finished, or suspended at an `await` on a
request.  While it is suspended the world it left is what the page shows; it
resumes with the settled result and the world as it is then. -/
inductive Async (σ : Type) where
  | done (w : World σ)
  | awaitCall (w : World σ) (model method : String) (ids : List JSNumber)
      (kwargs : List (String × JSValue)) (k : Except JSError Unit → World σ → Async σ)
  | awaitSearchRead (w : World σ) (model : String) (domain : List (String × String × JSNumber))
      (fields : List String) (k : Except JSError (List SessionRecord) → World σ → Async σ)

namespace Async

/-- Runs a method to completion against a backend, with no other handler
running in between.  Issuing a request is recorded in the log. -/
def run {σ : Type} (srv : Server) : Async σ → World σ
  | done w => w
  | awaitCall w model method ids kwargs k =>
    run srv (k (srv.call model method ids kwargs) (w.emit (.ormCall model method ids kwargs)))
  | awaitSearchRead w model domain fields k =>
    run srv (k (srv.searchRead model domain fields) (w.emit (.ormSearchRead model domain fields)))

/-- The worlds in which the method is suspended while its requests are in
flight, no other handler running in between. -/
def suspended {σ : Type} (srv : Server) : Async σ → List (World σ)
  | done _ => []
  | awaitCall w model method ids kwargs k =>
    let w1 := w.emit (.ormCall model method ids kwargs)
    w1 :: suspended srv (k (srv.call model method ids kwargs) w1)
  | awaitSearchRead w model domain fields k =>
    let w1 := w.emit (.ormSearchRead model domain fields)
    w1 :: suspended srv (k (srv.searchRead model domain fields) w1)

/-- The worlds the page goes through while the method is suspended, when
other handlers run during each request and turn the world `v` into
`other v` before the method resumes. -/
def suspendedAmid {σ : Type} (srv : Server) (other : World σ → World σ) :
    Async σ → List (World σ)
  | done _ => []
  | awaitCall w model method ids kwargs k =>
    let w1 := w.emit (.ormCall model method ids kwargs)
    w1 :: other w1 :: suspendedAmid srv other (k (srv.call model method ids kwargs) (other w1))
  | awaitSearchRead w model domain fields k =>
    let w1 := w.emit (.ormSearchRead model domain fields)
    w1 :: other w1 ::
      suspendedAmid srv other (k (srv.searchRead model domain fields) (other w1))

/-- The world a suspended method left when it issued its request. -/
def issued {σ : Type} : Async σ → Option (World σ)
  | done _ => none
  | awaitCall w model method ids kwargs _ => some (w.emit (.ormCall model method ids kwargs))
  | awaitSearchRead w model domain fields _ =>
    some (w.emit (.ormSearchRead model domain fields))

/-- Settles the call a method is suspended on and resumes it in the world
`v`; a method that is not suspended on a call stays as it is. -/
def resumeCall {σ : Type} (r : Except JSError Unit) (v : World σ) : Async σ → Async σ
  | awaitCall _ _ _ _ _ k => k r v
  | a => a

end Async

/-! ## `CashOpeningPopup` (cash_opening_popup.js) -/

namespace CashOpeningPopup

/-- The props of the popup; `close` is a callback and appears as an effect. -/
structure Props where
  session_id : JSNumber
  deriving DecidableEq

/-- The reactive state created in `setup`. -/
structure State where
  cashAmount : JSNumber
  notes : String
  loading : Bool
  deriving DecidableEq

/-- The state `setup` creates. -/
def setup : World State :=
  { state := { cashAmount := JSNumber.zero, notes := "", loading := false }, log := [] }

/-- The `catch` block of `confirm`. -/
def confirmCatch (error : JSError) (w : World State) : World State :=
  let w := w.emit (.consoleError "Error al abrir sesión:" error)
  let w := w.emit (.notificationAdd ("Error al abrir la sesión: " ++ error.message) "danger")
  { w with state := { w.state with loading := false } }

/-- The method `confirm()`. -/
def confirm (props : Props) (w : World State) : Async State :=
  let w := { w with state := { w.state with loading := true } }
  .awaitCall w "pos.session" "set_cashbox_opening" [props.session_id]
    [("cashbox_start", .number w.state.cashAmount), ("notes", .string w.state.notes)]
    fun r w =>
      match r with
      | .error error => .done (confirmCatch error w)
      | .ok _ =>
        .awaitCall w "pos.session" "action_pos_session_open" [props.session_id] []
          fun r w =>
            match r with
            | .error error => .done (confirmCatch error w)
            | .ok _ =>
              let w := w.emit (.notificationAdd "Sesión iniciada correctamente" "success")
              .done (w.emit
                (.setLocation ("/punto_inicio/ui?session_id=" ++ numberToString props.session_id)))

/-- The method `cancel()`. -/
def cancel (w : World State) : World State := w.emit .propsClose

/-- The method `onCashAmountChange(ev)`, on the value of the input field. -/
def onCashAmountChange (value : String) (w : World State) : World State :=
  { w with state := { w.state with cashAmount := (parseFloat value).or JSNumber.zero } }

/-- The method `onNotesChange(ev)`, on the value of the input field. -/
def onNotesChange (value : String) (w : World State) : World State :=
  { w with state := { w.state with notes := value } }

end CashOpeningPopup

/-! ## `PuntoInicioApp` (punto_inicio_app.js) -/

namespace PuntoInicioApp

/-- The reactive state created in `setup`. -/
structure State where
  session : Option SessionRecord
  loading : Bool
  error : Option String
  deriving DecidableEq

/-- The state `setup` creates. -/
def setup : World State :=
  { state := { session := none, loading := true, error := none }, log := [] }

/-- The `catch` block of `loadSession`. -/
def loadSessionCatch (error : JSError) (w : World State) : World State :=
  let w := w.emit (.consoleError "Error al cargar sesión:" error)
  let w := { w with state := { w.state with error := some error.message } }
  let w := { w with state := { w.state with loading := false } }
  w.emit (.notificationAdd ("Error al cargar la sesión: " ++ error.message) "danger")

/-- The fields `loadSession` asks for. -/
def sessionFields : List String :=
  ["name", "config_id", "start_at", "state", "cash_register_balance_start"]

/-- The error thrown by `loadSession` when `!sessionId` holds. -/
def missingIdError : JSError := ⟨"No se proporcionó ID de sesión"⟩

/-- The error thrown by `loadSession` when the fetch returns no record. -/
def notFoundError : JSError := ⟨"Sesión no encontrada"⟩

/-- The method `loadSession()`; `param` is `urlParams.get('session_id')`. -/
def loadSession (param : Option String) (w : World State) : Async State :=
  let sessionId := parseInt (toStringNullable param)
  if !sessionId.toBoolean then .done (loadSessionCatch missingIdError w)
  else
    .awaitSearchRead w "pos.session" [("id", "=", sessionId)] sessionFields
      fun r w =>
        match r with
        | .error error => .done (loadSessionCatch error w)
        | .ok sessions =>
          match sessions with
          | [] => .done (loadSessionCatch notFoundError w)
          | first :: _ =>
            let w := { w with state := { w.state with session := some first } }
            .done { w with state := { w.state with loading := false } }

/-- The `catch` block of `closeSession`. -/
def closeSessionCatch (error : JSError) (w : World State) : World State :=
  let w := w.emit (.consoleError "Error al cerrar sesión:" error)
  w.emit (.notificationAdd ("Error al cerrar la sesión: " ++ error.message) "danger")

/-- The TypeError raised by reading `.id` of `null` (the wording of the
message is the engine's; this is the one of V8). -/
def nullIdError : JSError := ⟨"Cannot read properties of null (reading 'id')"⟩

/-- The dashboard address both `closeSession` and `backToDashboard` go to. -/
def dashboardUrl : String := "/web#action=punto_inicio.action_punto_inicio_dashboard"

/-- The question `closeSession` asks through `window.confirm`. -/
def closePrompt : String := "¿Estás seguro de que deseas cerrar esta sesión?"

/-- The method `closeSession()`; `windowConfirm` is the global `confirm`,
that is the answer of the user to a prompt. -/
def closeSession (windowConfirm : String → Bool) (w : World State) : Async State :=
  let w := w.emit (.windowConfirm closePrompt)
  if !windowConfirm closePrompt then .done w
  else
    match w.state.session with
    | none => .done (closeSessionCatch nullIdError w)
    | some session =>
      .awaitCall w "pos.session" "action_pos_session_closing_control" [session.id] []
        fun r w =>
          match r with
          | .error error => .done (closeSessionCatch error w)
          | .ok _ =>
            let w := w.emit (.notificationAdd "Sesión cerrada correctamente" "success")
            .done (w.emit (.setLocation dashboardUrl))

/-- The method `backToDashboard()`. -/
def backToDashboard (w : World State) : World State := w.emit (.setLocation dashboardUrl)

end PuntoInicioApp

/-! ## Scenarios: backends and sequences of user actions -/

/-- The numeral of `10^309`, a one followed by 309 zeros: an integer beyond
the largest double. -/
def longNumeral : String := String.mk ('1' :: List.replicate 309 '0')

/-- A backend that accepts every call and answers every fetch with `records`. -/
def Server.answering (records : List SessionRecord) : Server :=
  { call := fun _ _ _ _ => .ok (), searchRead := fun _ _ _ => .ok records }

/-- A backend that rejects the calls of one method with `error`, accepts
the others, and rejects every fetch. -/
def Server.rejecting (method : String) (error : JSError) : Server :=
  { call := fun _ m _ _ => if m = method then .error error else .ok (),
    searchRead := fun _ _ _ => .error error }

namespace CashOpeningPopup

/-- One use of the popup: an edit of a field, a confirmation carried to its
end against a backend, or a cancellation. -/
inductive Op where
  | cashAmountChange (value : String)
  | notesChange (value : String)
  | confirm (srv : Server)
  | cancel

/-- The world after one use. -/
def Op.apply (props : Props) : Op → World State → World State
  | .cashAmountChange value, w => onCashAmountChange value w
  | .notesChange value, w => onNotesChange value w
  | .confirm srv, w => Async.run srv (CashOpeningPopup.confirm props w)
  | .cancel, w => CashOpeningPopup.cancel w

/-- The world after a sequence of uses. -/
def runOps (props : Props) (ops : List Op) (w : World State) : World State :=
  ops.foldl (fun w op => op.apply props w) w

/-- No amount typed in the sequence is read by `parseFloat` as a Number
below zero. -/
def noNegativeInput (ops : List Op) : Bool :=
  ops.all fun op =>
    match op with
    | .cashAmountChange value => !(parseFloat value).isNegative
    | _ => true

/-- Every `cashbox_start` argument in the list is a Number `>= 0`. -/
def nonNegativeStart (kwargs : List (String × JSValue)) : Bool :=
  kwargs.all fun kv =>
    match kv with
    | (key, .number n) => key != "cashbox_start" || n.isNonNegative
    | _ => true

/-- Every `set_cashbox_opening` request in the log sends a `cashbox_start >= 0`. -/
def nonNegativeOpenings (log : List Effect) : Bool :=
  log.all fun e =>
    match e with
    | .ormCall _ method _ kwargs => method != "set_cashbox_opening" || nonNegativeStart kwargs
    | _ => true

end CashOpeningPopup

/-! ## Facts about the arithmetic helpers -/

theorem pow2_eq (e : Int) : pow2 e = 2 ^ e.toNat := by
  simp [pow2, Nat.shiftLeft_eq]

theorem powFast_eq (b : Nat) : ∀ fuel e : Nat, e ≤ fuel → powFast b fuel e = b ^ e := by
  intro fuel
  induction fuel with
  | zero => intro e he; simp [Nat.le_zero.mp he, powFast]
  | succ fuel ih =>
    intro e he
    unfold powFast
    by_cases h0 : e = 0
    · simp [h0]
    · have hhalf : e / 2 ≤ fuel := by omega
      rw [if_neg h0, ih _ hhalf, ← pow_add]
      by_cases h2 : e % 2 = 0
      · rw [if_pos h2]
        congr 1
        omega
      · rw [if_neg h2, ← pow_succ']
        congr 1
        omega

/-- `pow10` is the power of ten. -/
theorem pow10_eq (e : Nat) : pow10 e = 10 ^ e := powFast_eq 10 e e le_rfl

theorem log2Descend_spec (n : Nat) : ∀ j r : Nat, 2 ^ r ≤ n → n < 2 ^ (r + 2 ^ j) →
    2 ^ log2Descend n j r ≤ n ∧ n < 2 ^ (log2Descend n j r + 1) := by
  intro j
  induction j with
  | zero => intro r h₁ h₂; exact ⟨h₁, by simpa using h₂⟩
  | succ j ih =>
    intro r h₁ h₂
    unfold log2Descend
    simp only [Nat.shiftLeft_eq, one_mul]
    by_cases h : 2 ^ (r + 2 ^ j) ≤ n
    · rw [if_pos h]
      apply ih _ h
      have : r + 2 ^ j + 2 ^ j = r + 2 ^ (j + 1) := by rw [pow_succ]; omega
      rw [this]
      exact h₂
    · rw [if_neg h]
      exact ih _ h₁ (not_le.mp h)

theorem log2Span_spec (n : Nat) : ∀ fuel k : Nat, n ≤ k + fuel →
    n < 2 ^ 2 ^ log2Span n fuel k := by
  intro fuel
  induction fuel with
  | zero =>
    intro k hk
    simp only [log2Span]
    calc n ≤ k := by simpa using hk
      _ < 2 ^ k := Nat.lt_two_pow k
      _ ≤ 2 ^ 2 ^ k := Nat.pow_le_pow_right (by decide) (Nat.lt_two_pow k).le
  | succ fuel ih =>
    intro k hk
    unfold log2Span
    simp only [Nat.shiftLeft_eq, one_mul]
    by_cases h : n < 2 ^ 2 ^ k
    · rw [if_pos h]; exact h
    · rw [if_neg h]; exact ih (k + 1) (by omega)

/-- For `n > 0`, `log2Floor n` is the position of the leading bit of `n`. -/
theorem log2Floor_spec (n : Nat) (h : 0 < n) :
    2 ^ log2Floor n ≤ n ∧ n < 2 ^ (log2Floor n + 1) := by
  apply log2Descend_spec
  · simpa using h
  · simpa using log2Span_spec n n 0 (by omega)

/-! ## Rounding of integers, and Number::toString on them -/

theorem log2Floor_one : log2Floor 1 = 0 := by decide

theorem log2Floor_lt_of_lt (v j : Nat) (h₀ : 0 < v) (h : v < 2 ^ j) : log2Floor v < j := by
  have hs := (log2Floor_spec v h₀).1
  by_contra hcon
  have : 2 ^ j ≤ 2 ^ log2Floor v := Nat.pow_le_pow_right (by decide) (not_lt.mp hcon)
  omega

theorem le_log2Floor_of_le (v j : Nat) (h : 2 ^ j ≤ v) : j ≤ log2Floor v := by
  have h₀ : 0 < v := lt_of_lt_of_le (by positivity) h
  have hs := (log2Floor_spec v h₀).2
  by_contra hcon
  have : 2 ^ (log2Floor v + 1) ≤ 2 ^ j := Nat.pow_le_pow_right (by decide) (by omega)
  omega

/-- An integer below `2^53` is a double: rounding leaves it as it is. -/
theorem roundToDouble_of_lt (negative : Bool) (v : Nat) (h : v < 2 ^ 53) :
    roundToDouble negative v 1 = .finite negative v 1 := by
  unfold roundToDouble
  by_cases h₀ : v = 0
  · simp [h₀]
  rw [if_neg h₀]
  have hpos : 0 < v := Nat.pos_of_ne_zero h₀
  have hf : log2Floor v < 53 := log2Floor_lt_of_lt v 53 hpos h
  have hspec := log2Floor_spec v hpos
  generalize log2Floor v = f at hf hspec
  simp only [log2Floor_one, Nat.cast_zero, sub_zero, one_mul]
  have hp1 : pow2 (f : Int) = 2 ^ f := by simp [pow2_eq]
  have hp2 : pow2 (-(f : Int)) = 1 := by simp [pow2_eq]
  have ht : (if pow2 (f : Int) ≤ v * pow2 (-(f : Int)) then (f : Int) else (f : Int) - 1) = f := by
    rw [hp1, hp2, mul_one, if_pos hspec.1]
  rw [ht]
  have he : max ((f : Int) - 52) (-1074) = (f : Int) - 52 := by omega
  rw [he]
  have hp3 : pow2 ((f : Int) - 52) = 1 := by
    rw [pow2_eq]
    have : ((f : Int) - 52).toNat = 0 := by omega
    rw [this]; rfl
  have hp4 : pow2 (-((f : Int) - 52)) = 2 ^ (52 - f) := by
    rw [pow2_eq]
    have : (-((f : Int) - 52)).toNat = 52 - f := by omega
    rw [this]
  rw [hp3, hp4]
  simp only [mul_one, Nat.div_one, Nat.mod_one, mul_zero, Nat.lt_one_iff, if_true,
    zero_lt_one]
  have hlt : v * 2 ^ (52 - f) < 2 ^ 53 := by
    calc v * 2 ^ (52 - f) < 2 ^ (f + 1) * 2 ^ (52 - f) :=
          Nat.mul_lt_mul_of_pos_right hspec.2 (by positivity)
      _ = 2 ^ 53 := by rw [← pow_add]; congr 1; omega
  have hno : ¬ pow2 1024 ≤ v * 2 ^ (52 - f) := by
    have : (2 : Nat) ^ 53 ≤ pow2 1024 := by decide
    omega
  rw [if_neg hno]
  have hg : Nat.gcd (v * 2 ^ (52 - f)) (2 ^ (52 - f)) = 2 ^ (52 - f) :=
    Nat.gcd_eq_right (Dvd.intro_left v rfl)
  rw [hg, Nat.mul_div_cancel _ (by positivity), Nat.div_self (by positivity)]

/-- An integer from `2^53` on is rounded to an integer from `2^53` on, or to
an infinity. -/
theorem roundToDouble_of_ge (negative : Bool) (v : Nat) (h : 2 ^ 53 ≤ v) :
    roundToDouble negative v 1 = .infinity negative ∨
      ∃ m : Nat, 2 ^ 53 ≤ m ∧ roundToDouble negative v 1 = .finite negative m 1 := by
  unfold roundToDouble
  have hpos : 0 < v := lt_of_lt_of_le (by positivity) h
  rw [if_neg (Nat.pos_iff_ne_zero.mp hpos)]
  have hf : 53 ≤ log2Floor v := le_log2Floor_of_le v 53 h
  have hspec := log2Floor_spec v hpos
  generalize log2Floor v = f at hf hspec
  simp only [log2Floor_one, Nat.cast_zero, sub_zero, one_mul]
  have hp1 : pow2 (f : Int) = 2 ^ f := by simp [pow2_eq]
  have hp2 : pow2 (-(f : Int)) = 1 := by simp [pow2_eq]
  have ht : (if pow2 (f : Int) ≤ v * pow2 (-(f : Int)) then (f : Int) else (f : Int) - 1) = f := by
    rw [hp1, hp2, mul_one, if_pos hspec.1]
  rw [ht]
  have he : max ((f : Int) - 52) (-1074) = (f : Int) - 52 := by omega
  rw [he]
  have hp3 : pow2 ((f : Int) - 52) = 2 ^ (f - 52) := by
    rw [pow2_eq]
    have : ((f : Int) - 52).toNat = f - 52 := by omega
    rw [this]
  have hp4 : pow2 (-((f : Int) - 52)) = 1 := by
    rw [pow2_eq]
    have : (-((f : Int) - 52)).toNat = 0 := by omega
    rw [this]; rfl
  rw [hp3, hp4]
  simp only [mul_one, Nat.gcd_one_right, Nat.div_one, Nat.div_self zero_lt_one]
  have hk : 2 ^ 52 ≤ v / 2 ^ (f - 52) := by
    rw [Nat.le_div_iff_mul_le (by positivity), ← pow_add]
    calc 2 ^ (52 + (f - 52)) = 2 ^ f := by congr 1; omega
      _ ≤ v := hspec.1
  generalize hm : (if 2 * (v % 2 ^ (f - 52)) < 2 ^ (f - 52) then v / 2 ^ (f - 52)
      else if 2 ^ (f - 52) < 2 * (v % 2 ^ (f - 52)) then v / 2 ^ (f - 52) + 1
      else if v / 2 ^ (f - 52) % 2 = 0 then v / 2 ^ (f - 52) else v / 2 ^ (f - 52) + 1) = m
  have hmk : 2 ^ 52 ≤ m := by
    rw [← hm]
    split_ifs <;> omega
  by_cases hov : pow2 1024 ≤ m * 2 ^ (f - 52)
  · rw [if_pos hov]; exact Or.inl rfl
  · rw [if_neg hov]
    refine Or.inr ⟨_, ?_, rfl⟩
    calc 2 ^ 53 = 2 ^ 52 * 2 ^ 1 := by norm_num
      _ ≤ m * 2 ^ (f - 52) :=
        Nat.mul_le_mul hmk (Nat.pow_le_pow_right (by decide) (by omega))

/-- The only integer that is rounded to an integer `n` below `2^53` is `n`. -/
theorem roundToDouble_eq_safe (v n : Nat) (hn : n < 2 ^ 53)
    (h : roundToDouble false v 1 = .finite false n 1) : v = n := by
  by_cases hv : v < 2 ^ 53
  · rw [roundToDouble_of_lt false v hv] at h
    injection h
  · rcases roundToDouble_of_ge false v (not_lt.mp hv) with h' | ⟨m, hm, h'⟩
    · rw [h'] at h; exact absurd h (by simp)
    · rw [h'] at h
      injection h with _ hmn _
      omega

theorem toDigitsCore_append (fuel : Nat) : ∀ (n : Nat) (ds : List Char),
    Nat.toDigitsCore 10 fuel n ds = Nat.toDigitsCore 10 fuel n [] ++ ds := by
  induction fuel with
  | zero => intro n ds; rfl
  | succ fuel ih =>
    intro n ds
    simp only [Nat.toDigitsCore]
    by_cases h : n / 10 = 0
    · simp [h]
    · rw [if_neg h, if_neg h, ih _ (_ :: ds), ih _ [_]]
      simp

theorem toDigitsCore_fuel (fuel₁ : Nat) : ∀ (fuel₂ n : Nat), n < fuel₁ → n < fuel₂ →
    Nat.toDigitsCore 10 fuel₁ n [] = Nat.toDigitsCore 10 fuel₂ n [] := by
  induction fuel₁ with
  | zero => intro fuel₂ n h; exact absurd h (Nat.not_lt_zero _)
  | succ fuel₁ ih =>
    intro fuel₂ n h₁ h₂
    cases fuel₂ with
    | zero => exact absurd h₂ (Nat.not_lt_zero _)
    | succ fuel₂ =>
      simp only [Nat.toDigitsCore]
      by_cases h : n / 10 = 0
      · simp [h]
      · rw [if_neg h, if_neg h, toDigitsCore_append fuel₁, toDigitsCore_append fuel₂,
          ih fuel₂ (n / 10) (by omega) (by omega)]

theorem toDigits_ten_mul (m : Nat) (h : 0 < m) :
    Nat.toDigits 10 (10 * m) = Nat.toDigits 10 m ++ ['0'] := by
  have hdiv : 10 * m / 10 = m := by omega
  have hmod : 10 * m % 10 = 0 := by omega
  have hm : m ≠ 0 := Nat.pos_iff_ne_zero.mp h
  simp only [Nat.toDigits, Nat.toDigitsCore, hdiv, hmod, hm, if_false]
  rw [toDigitsCore_append, toDigitsCore_fuel (10 * m) (m + 1) m (by omega) (by omega)]
  rfl

/-- The numeral of `s * 10^z` is the numeral of `s` followed by `z` zeros. -/
theorem toDigits_mul_pow (s : Nat) (h : 0 < s) : ∀ z : Nat,
    Nat.toDigits 10 (s * 10 ^ z) = Nat.toDigits 10 s ++ List.replicate z '0' := by
  intro z
  induction z with
  | zero => simp
  | succ z ih =>
    have : s * 10 ^ (z + 1) = 10 * (s * 10 ^ z) := by ring
    rw [this, toDigits_ten_mul _ (by positivity), ih, List.append_assoc,
      List.replicate_succ']

theorem toDigits_length_pos (n : Nat) : 0 < (Nat.toDigits 10 n).length := by
  simp only [Nat.toDigits, Nat.toDigitsCore]
  split
  · simp
  · rw [Nat.toDigitsCore_lens_eq]
    omega

theorem toDigits_length_le (n : Nat) (h : n < 2 ^ 53) : (Nat.toDigits 10 n).length ≤ 16 :=
  Nat.toDigitsCore_length 10 (by decide) (n + 1) n 16 (lt_trans h (by norm_num)) (by decide)

theorem decimalPoint_integer (n : Nat) (h : 0 < n) :
    decimalPoint n 1 = ((Nat.toDigits 10 n).length : Int) := by
  have hn : n ≠ 0 := Nat.pos_iff_ne_zero.mp h
  simp [decimalPoint, hn]

theorem pow10_zero : pow10 0 = 1 := by decide

theorem digitCandidates_integer_self (n : Nat) (h₀ : 0 < n) (h : n < 2 ^ 53) :
    ∃ rest, digitCandidates n 1 (Nat.toDigits 10 n).length = n :: rest := by
  unfold digitCandidates
  rw [decimalPoint_integer n h₀]
  simp only [sub_self, Int.toNat_zero, neg_zero, pow10_zero, mul_one, Nat.div_one, Nat.mod_one,
    mul_zero, zero_lt_one, if_true]
  rw [List.filter_cons_of_pos (by simpa using roundToDouble_of_lt false n h)]
  exact ⟨_, rfl⟩

theorem mem_digitCandidates_integer (n k s : Nat) (h₀ : 0 < n) (h : n < 2 ^ 53)
    (hk : k ≤ (Nat.toDigits 10 n).length) (hs : s ∈ digitCandidates n 1 k) :
    s * 10 ^ ((Nat.toDigits 10 n).length - k) = n := by
  unfold digitCandidates at hs
  rw [decimalPoint_integer n h₀] at hs
  have hc₁ : ((k : Int) - ((Nat.toDigits 10 n).length : Int)).toNat = 0 := by omega
  have hc₂ : (-((k : Int) - ((Nat.toDigits 10 n).length : Int))).toNat =
      (Nat.toDigits 10 n).length - k := by omega
  simp only [hc₁, hc₂, pow10_zero, pow10_eq] at hs
  have hread := (List.mem_filter.mp hs).2
  exact roundToDouble_eq_safe _ n h (of_decide_eq_true hread)

theorem shortestDigits_spec (a b : Nat) : ∀ fuel k K : Nat, k ≤ K → K < k + fuel →
    digitCandidates a b K ≠ [] →
    ∃ k', k ≤ k' ∧ k' ≤ K ∧ ∃ s rest, digitCandidates a b k' = s :: rest ∧
      shortestDigits a b fuel k = (k', s) := by
  intro fuel
  induction fuel with
  | zero => intro k K h₁ h₂; omega
  | succ fuel ih =>
    intro k K h₁ h₂ hK
    unfold shortestDigits
    cases hc : digitCandidates a b k with
    | cons s rest => exact ⟨k, le_rfl, h₁, s, rest, hc, rfl⟩
    | nil =>
      have hne : k ≠ K := by
        rintro rfl
        exact hK hc
      obtain ⟨k', hk₁, hk₂, s, rest, hcand, hres⟩ := ih (k + 1) K (by omega) (by omega) hK
      exact ⟨k', by omega, hk₂, s, rest, hcand, hres⟩

/-- Number::toString prints a positive integer below `2^53` as its decimal
numeral. -/
theorem positiveToString_integer (n : Nat) (h₀ : 0 < n) (h : n < 2 ^ 53) :
    positiveToString n 1 = String.mk (Nat.toDigits 10 n) := by
  have hd₁ := toDigits_length_pos n
  have hd₂ := toDigits_length_le n h
  obtain ⟨rest, hself⟩ := digitCandidates_integer_self n h₀ h
  obtain ⟨k, hk₁, hk₂, s, rest', hcand, hres⟩ :=
    shortestDigits_spec n 1 17 1 (Nat.toDigits 10 n).length hd₁ (by omega)
      (by rw [hself]; simp)
  have hval := mem_digitCandidates_integer n k s h₀ h hk₂ (by rw [hcand]; simp)
  have hspos : 0 < s := by
    rcases Nat.eq_zero_or_pos s with hs | hs
    · rw [hs, zero_mul] at hval; omega
    · exact hs
  unfold positiveToString
  rw [hres, decimalPoint_integer n h₀]
  generalize hd : (Nat.toDigits 10 n).length = d at hd₁ hd₂ hk₂ hval
  simp only [pow10_eq]
  by_cases hcar : s = 10 ^ k
  · simp only [hcar, decide_True, if_true]
    have hcond : (k : Int) ≤ (d : Int) + 1 ∧ (d : Int) + 1 ≤ 21 := by omega
    rw [if_pos hcond]
    have hz : ((d : Int) + 1 - (k : Int)).toNat = d + 1 - k := by omega
    rw [hz, ← toDigits_mul_pow _ (by positivity), ← pow_add]
    rw [hcar, ← pow_add] at hval
    rw [← hval]
    congr 3
    omega
  · simp only [hcar, decide_False, if_false, Bool.false_eq_true]
    have hcond : (k : Int) ≤ (d : Int) ∧ (d : Int) ≤ 21 := by omega
    rw [if_pos hcond]
    have hz : ((d : Int) - (k : Int)).toNat = d - k := by omega
    rw [hz, ← toDigits_mul_pow _ hspos, hval]

/-! ## Facts about the parsers -/

theorem stripPrefix_of_not_digit (t : List Char)
    (h : ∀ c r, t = c :: r → isDecimalDigit c = false) : stripPrefix t = (10, t) := by
  unfold stripPrefix
  split
  · exact absurd (h _ _ rfl) (by decide)
  · exact absurd (h _ _ rfl) (by decide)
  · rfl

theorem parseInt_eq_nan_of_not_digit (s : String)
    (h : ∀ c r, dropSign (trimStart s.toList) = c :: r → isDecimalDigit c = false) :
    parseInt s = JSNumber.nan := by
  have hz : (dropSign (trimStart s.toList)).takeWhile (isRadixDigit 10) = [] := by
    cases ht : dropSign (trimStart s.toList) with
    | nil => rfl
    | cons c r =>
      have hc : isRadixDigit 10 c = false := h c r ht
      simp [List.takeWhile, hc]
  unfold parseInt
  simp only [stripPrefix_of_not_digit _ h, hz]
  rfl

theorem dropWhile_append_of_all {α : Type} (p : α → Bool) :
    ∀ l₁ l₂ : List α, l₁.all p = true → (l₁ ++ l₂).dropWhile p = l₂.dropWhile p := by
  intro l₁
  induction l₁ with
  | nil => intro l₂ _; rfl
  | cons a l ih =>
    intro l₂ h
    simp only [List.all_cons, Bool.and_eq_true] at h
    simp [List.dropWhile, h.1, ih l₂ h.2]

/-- White space before the input does not change what `parseFloat` reads. -/
theorem parseFloat_append_whiteSpace (ws value : String)
    (h : ws.toList.all isWhiteSpace = true) : parseFloat (ws ++ value) = parseFloat value := by
  unfold parseFloat trimStart
  have : (ws ++ value).toList = ws.toList ++ value.toList := by simp
  rw [this, dropWhile_append_of_all _ _ _ h]

theorem toDigits_div_mod (n : Nat) (h : n / 10 ≠ 0) :
    Nat.toDigits 10 n = Nat.toDigits 10 (n / 10) ++ [Nat.digitChar (n % 10)] := by
  have h₁ : Nat.toDigits 10 n = Nat.toDigitsCore 10 n (n / 10) [Nat.digitChar (n % 10)] := by
    simp only [Nat.toDigits, Nat.toDigitsCore, h, if_false]
  rw [h₁, toDigitsCore_append, toDigitsCore_fuel n (n / 10 + 1) (n / 10) (by omega) (by omega)]
  rfl

theorem toDigits_of_lt_ten (n : Nat) (h : n / 10 = 0) :
    Nat.toDigits 10 n = [Nat.digitChar (n % 10)] := by
  simp [Nat.toDigits, Nat.toDigitsCore, h]

theorem digitOf_digitChar (r : Nat) (h : r < 10) :
    digitOf (Nat.digitChar r) = some r ∧ isDecimalDigit (Nat.digitChar r) = true := by
  interval_cases r <;> decide

theorem radixValue_append_singleton (l : List Char) (c : Char) :
    radixValue 10 (l ++ [c]) = 10 * radixValue 10 l + (digitOf c).getD 0 := by
  simp [radixValue, List.foldl_append]

/-- The numeral of `n` is made of decimal digits, and they write `n`. -/
theorem toDigits_spec (n : Nat) :
    radixValue 10 (Nat.toDigits 10 n) = n ∧
      (Nat.toDigits 10 n).all isDecimalDigit = true := by
  induction n using Nat.strong_induction_on with
  | _ n ih =>
    have hr := digitOf_digitChar (n % 10) (Nat.mod_lt _ (by decide))
    by_cases h : n / 10 = 0
    · rw [toDigits_of_lt_ten n h]
      refine ⟨?_, by simp [hr.2]⟩
      simp only [radixValue, List.foldl, hr.1, Option.getD_some]
      omega
    · rw [toDigits_div_mod n h]
      have := ih (n / 10) (by omega)
      refine ⟨?_, by simp [hr.2, this.2]⟩
      rw [radixValue_append_singleton, this.1, hr.1, Option.getD_some]
      omega


theorem isDecimalDigit_range (c : Char) (h : isDecimalDigit c = true) :
    48 ≤ c.toNat ∧ c.toNat ≤ 57 := by
  unfold isDecimalDigit isRadixDigit digitOf at h
  simp only at h
  by_cases h₁ : 48 ≤ c.toNat ∧ c.toNat ≤ 57
  · exact h₁
  · rw [if_neg h₁] at h
    by_cases h₂ : 97 ≤ c.toNat ∧ c.toNat ≤ 122
    · rw [if_pos h₂] at h
      simp only [decide_eq_true_eq] at h
      omega
    · rw [if_neg h₂] at h
      by_cases h₃ : 65 ≤ c.toNat ∧ c.toNat ≤ 90
      · rw [if_pos h₃] at h
        simp only [decide_eq_true_eq] at h
        omega
      · rw [if_neg h₃] at h
        exact absurd h (by simp)

theorem not_whiteSpace_of_digit (c : Char) (h : isDecimalDigit c = true) :
    isWhiteSpace c = false := by
  have hr := isDecimalDigit_range c h
  have key : ∀ n : Nat, 48 ≤ n → n ≤ 57 →
      ([0x9, 0xA, 0xB, 0xC, 0xD, 0x20, 0xA0, 0x1680, 0x2028, 0x2029, 0x202F, 0x205F,
        0x3000, 0xFEFF].contains n || (decide (0x2000 ≤ n) && decide (n ≤ 0x200A))) = false := by
    intro n h₁ h₂
    interval_cases n <;> rfl
  exact key c.toNat hr.1 hr.2

theorem numeral_shape (ds : List Char) (hne : ds ≠ []) (hall : ds.all isDecimalDigit = true) :
    trimStart ds = ds ∧ dropSign ds = ds ∧ hasMinus ds = false ∧
      stripPrefix ds = (10, ds) ∧ ds.takeWhile isDecimalDigit = ds ∧
      ds.dropWhile isDecimalDigit = [] ∧ "Infinity".toList.isPrefixOf ds = false := by
  have htake : ds.takeWhile isDecimalDigit = ds := by
    rw [List.takeWhile_eq_self_iff]
    intro c hc
    exact List.all_eq_true.mp hall c hc
  have hdrop : ds.dropWhile isDecimalDigit = [] := by
    rw [List.dropWhile_eq_nil_iff]
    intro c hc
    exact List.all_eq_true.mp hall c hc
  cases ds with
  | nil => exact absurd rfl hne
  | cons c r =>
    have hc : isDecimalDigit c = true := List.all_eq_true.mp hall c (List.mem_cons_self _ _)
    have hdiff : ∀ c', isDecimalDigit c' = false → c ≠ c' := by
      intro c' h' heq
      rw [heq, h'] at hc
      exact absurd hc (by simp)
    refine ⟨?_, ?_, ?_, ?_, htake, hdrop, ?_⟩
    · simp [trimStart, List.dropWhile, not_whiteSpace_of_digit c hc]
    · unfold dropSign
      split
      · rename_i heq
        exact absurd (List.cons.inj heq).1 (hdiff '+' (by decide))
      · rename_i heq
        exact absurd (List.cons.inj heq).1 (hdiff '-' (by decide))
      · rfl
    · unfold hasMinus
      split
      · rename_i heq
        exact absurd (List.cons.inj heq).1 (hdiff '-' (by decide))
      · rfl
    · unfold stripPrefix
      split
      · rename_i r' heq
        have hx : isDecimalDigit 'x' = true :=
          List.all_eq_true.mp hall 'x' (by rw [heq]; simp)
        exact absurd hx (by decide)
      · rename_i r' heq
        have hx : isDecimalDigit 'X' = true :=
          List.all_eq_true.mp hall 'X' (by rw [heq]; simp)
        exact absurd hx (by decide)
      · rfl
    · have hI : ('I' == c) = false := by
        simpa using (hdiff 'I' (by decide)).symm
      show ('I' :: "nfinity".toList).isPrefixOf (c :: r) = false
      simp [List.isPrefixOf, hI]

/-- From the numeral of an integer `n` below `2^53`, `parseInt` reads `n`. -/
theorem parseInt_numeral (n : Nat) (h : n < 2 ^ 53) :
    parseInt (toString n) = .finite false n 1 := by
  have hspec := toDigits_spec n
  have hne : Nat.toDigits 10 n ≠ [] := by
    intro hnil
    have := toDigits_length_pos n
    rw [hnil] at this
    exact absurd this (by simp)
  obtain ⟨h₁, h₂, h₃, h₄, h₅, -, -⟩ := numeral_shape _ hne hspec.2
  have hlist : (toString n).toList = Nat.toDigits 10 n := rfl
  unfold parseInt
  simp only [hlist, h₁, h₂, h₃, h₄]
  have h₅' : (Nat.toDigits 10 n).takeWhile (isRadixDigit 10) = Nat.toDigits 10 n := h₅
  rw [h₅', hspec.1]
  have : (Nat.toDigits 10 n).isEmpty = false := by
    cases hds : Nat.toDigits 10 n with
    | nil => exact absurd hds hne
    | cons _ _ => rfl
  simp [this, roundToDouble_of_lt false n h]

/-- From the numeral of an integer `n` below `2^53`, `parseFloat` reads `n`. -/
theorem parseFloat_numeral (n : Nat) (h : n < 2 ^ 53) :
    parseFloat (toString n) = .finite false n 1 := by
  have hspec := toDigits_spec n
  have hne : Nat.toDigits 10 n ≠ [] := by
    intro hnil
    have := toDigits_length_pos n
    rw [hnil] at this
    exact absurd this (by simp)
  obtain ⟨h₁, h₂, h₃, -, h₅, h₆, h₇⟩ := numeral_shape _ hne hspec.2
  have hlist : (toString n).toList = Nat.toDigits 10 n := rfl
  have hemp : (Nat.toDigits 10 n).isEmpty = false := by
    cases hds : Nat.toDigits 10 n with
    | nil => exact absurd hds hne
    | cons _ _ => rfl
  unfold parseFloat
  simp only [hlist, h₁, h₂, h₃]
  unfold unsignedDecimal
  simp only [h₇, h₅, h₆, hemp, hspec.1]
  simp [decimalToDouble, exponentPart, pow10_zero, roundToDouble_of_lt false n h]

/-- From a minus sign and the numeral of an integer `n` below `2^53`,
`parseFloat` reads `-n`. -/
theorem parseFloat_minus_numeral (n : Nat) (h : n < 2 ^ 53) :
    parseFloat ("-" ++ toString n) = .finite true n 1 := by
  have hspec := toDigits_spec n
  have hne : Nat.toDigits 10 n ≠ [] := by
    intro hnil
    have := toDigits_length_pos n
    rw [hnil] at this
    exact absurd this (by simp)
  obtain ⟨-, -, -, -, h₅, h₆, h₇⟩ := numeral_shape _ hne hspec.2
  have hlist : ("-" ++ toString n).toList = '-' :: Nat.toDigits 10 n := rfl
  have hemp : (Nat.toDigits 10 n).isEmpty = false := by
    cases hds : Nat.toDigits 10 n with
    | nil => exact absurd hds hne
    | cons _ _ => rfl
  have htrim : trimStart ('-' :: Nat.toDigits 10 n) = '-' :: Nat.toDigits 10 n := by
    have : isWhiteSpace '-' = false := by decide
    simp [trimStart, List.dropWhile, this]
  unfold parseFloat
  simp only [hlist, htrim, dropSign, hasMinus]
  unfold unsignedDecimal
  simp only [h₇, h₅, h₆, hemp, hspec.1]
  simp [decimalToDouble, exponentPart, pow10_zero, roundToDouble_of_lt true n h]

set_option maxRecDepth 100000 in
/-- The numeral of `10^309` is read by `parseInt` as Infinity. -/
theorem parseInt_longNumeral : parseInt longNumeral = .infinity false := by
  decide

/-! ## `PuntoInicioApp.loadSession` -/

theorem loadSession_of_falsy (srv : Server) (param : Option String)
    (w : World PuntoInicioApp.State)
    (h : (parseInt (toStringNullable param)).toBoolean = false) :
    Async.run srv (PuntoInicioApp.loadSession param w) =
      { state :=
          { session := w.state.session, loading := false,
            error := some "No se proporcionó ID de sesión" },
        log := w.log ++
          [.consoleError "Error al cargar sesión:" ⟨"No se proporcionó ID de sesión"⟩,
            .notificationAdd "Error al cargar la sesión: No se proporcionó ID de sesión"
              "danger"] } ∧
    Async.suspended srv (PuntoInicioApp.loadSession param w) = [] := by
  have hm : "Error al cargar la sesión: " ++ PuntoInicioApp.missingIdError.message =
      "Error al cargar la sesión: No se proporcionó ID de sesión" := by decide
  simp only [PuntoInicioApp.loadSession, h, Async.run, Async.suspended,
    PuntoInicioApp.loadSessionCatch, World.emit, hm, List.append_assoc]
  constructor <;> first | rfl | trivial

theorem loadSession_of_truthy (srv : Server) (param : Option String)
    (w : World PuntoInicioApp.State)
    (h : (parseInt (toStringNullable param)).toBoolean = true) :
    ∃ rest : List Effect,
      (Async.run srv (PuntoInicioApp.loadSession param w)).log =
        w.log ++ .ormSearchRead "pos.session"
          [("id", "=", parseInt (toStringNullable param))]
          ["name", "config_id", "start_at", "state", "cash_register_balance_start"] :: rest ∧
      rest.any Effect.isRemoteCall = false := by
  simp only [PuntoInicioApp.loadSession, h, Async.run, PuntoInicioApp.sessionFields]
  cases srv.searchRead "pos.session" [("id", "=", parseInt (toStringNullable param))]
      ["name", "config_id", "start_at", "state", "cash_register_balance_start"] with
  | error e =>
    exact ⟨[.consoleError "Error al cargar sesión:" e,
        .notificationAdd ("Error al cargar la sesión: " ++ e.message) "danger"],
      by simp [Async.run, PuntoInicioApp.loadSessionCatch, World.emit],
      by simp [Effect.isRemoteCall]⟩
  | ok sessions =>
    cases sessions with
    | nil =>
      exact ⟨[.consoleError "Error al cargar sesión:" PuntoInicioApp.notFoundError,
          .notificationAdd
            ("Error al cargar la sesión: " ++ PuntoInicioApp.notFoundError.message) "danger"],
        by simp [Async.run, PuntoInicioApp.loadSessionCatch, World.emit],
        by simp [Effect.isRemoteCall]⟩
    | cons first more =>
      exact ⟨[], by simp [Async.run, World.emit], by simp⟩

theorem toBoolean_eq_false_iff (x : JSNumber) :
    x.toBoolean = false ↔ x = JSNumber.nan ∨ x.isZero = true := by
  cases x <;> simp [JSNumber.toBoolean, JSNumber.isZero]

/-- C1, as amended.  `loadSession` finishes without suspending, the state
keeping its session with `loading = false` and the error "No se proporcionó
ID de sesión", its only effects the console message and the danger
notification and no request sent to the backend, whenever `parseInt` reads
from the `session_id` parameter no number (`NaN`) or a zero.  That is so
when the parameter is absent, and when after leading white space and one
optional sign it does not start with a decimal digit.  Whenever `parseInt`
reads another Number, the first new effect is the fetch of that identifier.
What `parseInt` reads is the integer written by the leading digits, text
after them being ignored: the inputs listed give `NaN`, a zero, and a
Number that is fetched. -/
theorem loadSession_invalid_reference (srv : Server) (param : Option String)
    (w : World PuntoInicioApp.State) :
    ((parseInt (toStringNullable param) = JSNumber.nan ∨
        (parseInt (toStringNullable param)).isZero = true) →
      Async.run srv (PuntoInicioApp.loadSession param w) =
        { state :=
            { session := w.state.session, loading := false,
              error := some "No se proporcionó ID de sesión" },
          log := w.log ++
            [.consoleError "Error al cargar sesión:" ⟨"No se proporcionó ID de sesión"⟩,
              .notificationAdd "Error al cargar la sesión: No se proporcionó ID de sesión"
                "danger"] } ∧
      Async.suspended srv (PuntoInicioApp.loadSession param w) = []) ∧
    ((param = none ∨ ∃ s, param = some s ∧
        ∀ c r, dropSign (trimStart s.toList) = c :: r → isDecimalDigit c = false) →
      parseInt (toStringNullable param) = JSNumber.nan) ∧
    (¬ (parseInt (toStringNullable param) = JSNumber.nan ∨
        (parseInt (toStringNullable param)).isZero = true) →
      ∃ rest : List Effect,
        (Async.run srv (PuntoInicioApp.loadSession param w)).log =
          w.log ++ .ormSearchRead "pos.session"
            [("id", "=", parseInt (toStringNullable param))]
            ["name", "config_id", "start_at", "state", "cash_register_balance_start"]
            :: rest) ∧
    (parseInt "abc" = JSNumber.nan ∧ parseInt "" = JSNumber.nan ∧ parseInt " " = JSNumber.nan ∧
      parseInt "-" = JSNumber.nan ∧ parseInt ".5" = JSNumber.nan ∧
      parseInt "0x" = JSNumber.nan ∧ parseInt "0xg" = JSNumber.nan ∧
      parseInt "\u200b5" = JSNumber.nan) ∧
    (parseInt "0" = JSNumber.zero ∧ parseInt "-0" = .finite true 0 1 ∧
      parseInt "00" = JSNumber.zero ∧ parseInt "0abc" = JSNumber.zero ∧
      parseInt "0.9" = JSNumber.zero) ∧
    (parseInt "12abc" = .finite false 12 1 ∧ parseInt "7.9" = .finite false 7 1 ∧
      parseInt "1e3" = .finite false 1 1 ∧ parseInt "+7" = .finite false 7 1 ∧
      parseInt "-5" = .finite true 5 1 ∧ parseInt " \n42" = .finite false 42 1 ∧
      parseInt "\t\x0b\x0c\r\u00a0\u1680\u2000\u200a\u2028\u2029\u202f\u205f\u3000\ufeff12" =
        .finite false 12 1 ∧
      parseInt "0x1F" = .finite false 31 1 ∧ parseInt "0Xff" = .finite false 255 1 ∧
      parseInt "-0x10" = .finite true 16 1 ∧
      parseInt "9007199254740993" = .finite false 9007199254740992 1) := by
  refine ⟨fun h => ?_, fun h => ?_, fun h => ?_, by decide, by decide, by decide⟩
  · exact loadSession_of_falsy srv param w ((toBoolean_eq_false_iff _).mpr h)
  · rcases h with rfl | ⟨s, rfl, hs⟩
    · decide
    · exact parseInt_eq_nan_of_not_digit s hs
  · have ht : (parseInt (toStringNullable param)).toBoolean = true := by
      cases hb : (parseInt (toStringNullable param)).toBoolean with
      | true => rfl
      | false => exact absurd ((toBoolean_eq_false_iff _).mp hb) h
    obtain ⟨rest, hrest, -⟩ := loadSession_of_truthy srv param w ht
    exact ⟨rest, hrest⟩

/-- C1 at the mount state: the absent parameter and the strings `0x` and
`0abc` end errored with the missing-identifier message, the session still
`null`, and nothing asked of the backend. -/
theorem loadSession_invalid_reference_witness :
    parseInt (toStringNullable none) = JSNumber.nan ∧ parseInt "0x" = JSNumber.nan ∧
    parseInt "0abc" = JSNumber.zero ∧
    (Async.run (Server.answering []) (PuntoInicioApp.loadSession none
        PuntoInicioApp.setup)).state =
      { session := none, loading := false, error := some "No se proporcionó ID de sesión" } ∧
    (Async.run (Server.answering []) (PuntoInicioApp.loadSession none
        PuntoInicioApp.setup)).log.any Effect.isRemoteCall = false ∧
    (Async.run (Server.answering []) (PuntoInicioApp.loadSession (some "0x")
        PuntoInicioApp.setup)).state =
      { session := none, loading := false, error := some "No se proporcionó ID de sesión" } ∧
    (Async.run (Server.answering []) (PuntoInicioApp.loadSession (some "0x")
        PuntoInicioApp.setup)).log.any Effect.isRemoteCall = false ∧
    (Async.run (Server.answering []) (PuntoInicioApp.loadSession (some "0abc")
        PuntoInicioApp.setup)).state =
      { session := none, loading := false, error := some "No se proporcionó ID de sesión" } ∧
    (Async.run (Server.answering []) (PuntoInicioApp.loadSession (some "0abc")
        PuntoInicioApp.setup)).log.any Effect.isRemoteCall = false :=
  have h₀ := ((loadSession_invalid_reference (Server.answering []) none
    PuntoInicioApp.setup).1 (Or.inl (by decide))).1
  have h₁ := ((loadSession_invalid_reference (Server.answering []) (some "0x")
    PuntoInicioApp.setup).1 (Or.inl (by decide))).1
  have h₂ := ((loadSession_invalid_reference (Server.answering []) (some "0abc")
    PuntoInicioApp.setup).1 (Or.inr (by decide))).1
  ⟨by decide, by decide, by decide, by rw [h₀]; rfl, by rw [h₀]; decide, by rw [h₁]; rfl,
    by rw [h₁]; decide, by rw [h₂]; rfl, by rw [h₂]; decide⟩

/-- C1 as stated fails: `12abc` is not a numeral (not all of its characters
are digits), yet `parseInt` reads 12 from it and `loadSession` fetches
session 12 from the backend; the error it ends with is the one of the empty
answer, not the missing-identifier one. -/
theorem loadSession_numeric_prefix_counterexample :
    "12abc".toList.all isDecimalDigit = false ∧
    parseInt "12abc" = .finite false 12 1 ∧
    (Async.run (Server.answering []) (PuntoInicioApp.loadSession (some "12abc")
        PuntoInicioApp.setup)).log =
      [.ormSearchRead "pos.session" [("id", "=", .finite false 12 1)]
          ["name", "config_id", "start_at", "state", "cash_register_balance_start"],
        .consoleError "Error al cargar sesión:" ⟨"Sesión no encontrada"⟩,
        .notificationAdd "Error al cargar la sesión: Sesión no encontrada" "danger"] ∧
    (Async.run (Server.answering []) (PuntoInicioApp.loadSession (some "12abc")
        PuntoInicioApp.setup)).state.error = some "Sesión no encontrada" := by
  decide

/-- C2, as amended.  The guard of `loadSession` tests the Number read by
`parseInt` for truth only.  When it is `NaN` or a zero, the view ends
errored with the missing-identifier message and nothing is asked of the
backend.  When it is any other Number, a negative one included, the first
new effect is the fetch of the session with that identifier, and it is the
only request.  So, whatever the parameter, every identifier passed to
`searchRead` is a Number that is neither `NaN` nor a zero.  The decimal
numeral of a positive integer `n` below `2^53` is read as `n`, and `n` is
the identifier fetched. -/
theorem loadSession_guard_zero (srv : Server) (param : Option String)
    (w : World PuntoInicioApp.State) :
    ((parseInt (toStringNullable param) = JSNumber.nan ∨
        (parseInt (toStringNullable param)).isZero = true) →
      Async.run srv (PuntoInicioApp.loadSession param w) =
        { state :=
            { session := w.state.session, loading := false,
              error := some "No se proporcionó ID de sesión" },
          log := w.log ++
            [.consoleError "Error al cargar sesión:" ⟨"No se proporcionó ID de sesión"⟩,
              .notificationAdd "Error al cargar la sesión: No se proporcionó ID de sesión"
                "danger"] } ∧
      Async.suspended srv (PuntoInicioApp.loadSession param w) = []) ∧
    (parseInt (toStringNullable param) ≠ JSNumber.nan →
      (parseInt (toStringNullable param)).isZero = false →
      ∃ rest : List Effect,
        (Async.run srv (PuntoInicioApp.loadSession param w)).log =
          w.log ++ .ormSearchRead "pos.session"
            [("id", "=", parseInt (toStringNullable param))]
            ["name", "config_id", "start_at", "state", "cash_register_balance_start"]
            :: rest ∧
        rest.any Effect.isRemoteCall = false) ∧
    (∃ new : List Effect,
      (Async.run srv (PuntoInicioApp.loadSession param w)).log = w.log ++ new ∧
      ∀ model domain fields, Effect.ormSearchRead model domain fields ∈ new →
        ∃ id : JSNumber, domain = [("id", "=", id)] ∧ id ≠ JSNumber.nan ∧
          id.isZero = false) ∧
    (∀ n : Nat, 0 < n → n < 2 ^ 53 → param = some (toString n) →
      ∃ rest : List Effect,
        (Async.run srv (PuntoInicioApp.loadSession param w)).log =
          w.log ++ .ormSearchRead "pos.session" [("id", "=", .finite false n 1)]
            ["name", "config_id", "start_at", "state", "cash_register_balance_start"]
            :: rest) := by
  have htruthy : ∀ x : JSNumber, x ≠ JSNumber.nan → x.isZero = false → x.toBoolean = true := by
    intro x h₁ h₂
    cases hb : x.toBoolean with
    | true => rfl
    | false =>
      rcases (toBoolean_eq_false_iff x).mp hb with h | h
      · exact absurd h h₁
      · rw [h₂] at h; exact absurd h (by decide)
  refine ⟨fun h => ?_, fun h₁ h₂ => ?_, ?_, ?_⟩
  · exact loadSession_of_falsy srv param w ((toBoolean_eq_false_iff _).mpr h)
  · exact loadSession_of_truthy srv param w (htruthy _ h₁ h₂)
  rotate_left
  · intro n h₀ hn hparam
    have hparse : parseInt (toStringNullable param) = .finite false n 1 := by
      rw [hparam]
      exact parseInt_numeral n hn
    have hb : (parseInt (toStringNullable param)).toBoolean = true := by
      rw [hparse]
      simpa [JSNumber.toBoolean] using Nat.pos_iff_ne_zero.mp h₀
    obtain ⟨rest, hlog, -⟩ := loadSession_of_truthy srv param w hb
    rw [hparse] at hlog
    exact ⟨rest, hlog⟩
  · cases hb : (parseInt (toStringNullable param)).toBoolean with
    | false =>
      refine ⟨_, (congrArg World.log (loadSession_of_falsy srv param w hb).1), ?_⟩
      intro model domain fields hmem
      simp at hmem
    | true =>
      obtain ⟨rest, hlog, hrest⟩ := loadSession_of_truthy srv param w hb
      refine ⟨_, hlog, ?_⟩
      intro model domain fields hmem
      rcases List.mem_cons.mp hmem with heq | hmem
      · injection heq with _ hd _
        refine ⟨_, hd, ?_, ?_⟩
        · intro hnan
          rw [hnan] at hb
          exact absurd hb (by decide)
        · cases hz : (parseInt (toStringNullable param)).isZero with
          | false => rfl
          | true =>
            have := (toBoolean_eq_false_iff _).mpr (Or.inr hz)
            rw [hb] at this
            exact absurd this (by decide)
      · have := List.any_eq_false.mp hrest _ hmem
        simp [Effect.isRemoteCall] at this

/-- C2 at the parameters `-0`, `9007199254740993` and the numeral of
`10^309`: the first is read as the negative zero and ends errored; the
second is read as the double 9007199254740992, and that Number is fetched;
the third is read as Infinity, and Infinity is fetched. -/
theorem loadSession_guard_zero_witness :
    parseInt longNumeral = .infinity false ∧
    (Async.run (Server.answering []) (PuntoInicioApp.loadSession (some longNumeral)
        PuntoInicioApp.setup)).log.head? =
      some (.ormSearchRead "pos.session" [("id", "=", .infinity false)]
        ["name", "config_id", "start_at", "state", "cash_register_balance_start"]) ∧
    parseInt "-0" = .finite true 0 1 ∧
    (Async.run (Server.answering []) (PuntoInicioApp.loadSession (some "-0")
        PuntoInicioApp.setup)).state.error = some "No se proporcionó ID de sesión" ∧
    parseInt "9007199254740993" = .finite false 9007199254740992 1 ∧
    (Async.run (Server.answering []) (PuntoInicioApp.loadSession (some "9007199254740993")
        PuntoInicioApp.setup)).log.head? =
      some (.ormSearchRead "pos.session" [("id", "=", .finite false 9007199254740992 1)]
        ["name", "config_id", "start_at", "state", "cash_register_balance_start"]) :=
  have h₀ := ((loadSession_guard_zero (Server.answering []) (some "-0")
    PuntoInicioApp.setup).1 (Or.inr (by decide))).1
  have h₁ := (loadSession_guard_zero (Server.answering []) (some "9007199254740993")
    PuntoInicioApp.setup).2.1 (by decide) (by decide)
  have h₂ := (loadSession_guard_zero (Server.answering []) (some longNumeral)
    PuntoInicioApp.setup).2.1 (by rw [toStringNullable, parseInt_longNumeral]; simp)
    (by rw [toStringNullable, parseInt_longNumeral]; rfl)
  ⟨parseInt_longNumeral, by
    obtain ⟨rest, hrest, -⟩ := h₂
    rw [hrest]
    exact congrArg (fun x => some (Effect.ormSearchRead "pos.session" [("id", "=", x)]
      ["name", "config_id", "start_at", "state", "cash_register_balance_start"]))
      parseInt_longNumeral,
    by decide, by rw [h₀], by decide, by
    obtain ⟨rest, hrest, -⟩ := h₁
    rw [hrest]
    rfl⟩

/-- C2 as stated fails: `-5` is read as the Number -5, which is not
positive, and `loadSession` passes it to `searchRead`. -/
theorem loadSession_negative_counterexample :
    parseInt "-5" = .finite true 5 1 ∧
    (parseInt "-5").isPositive = false ∧
    (Async.run (Server.answering []) (PuntoInicioApp.loadSession (some "-5")
        PuntoInicioApp.setup)).log.head? =
      some (.ormSearchRead "pos.session" [("id", "=", .finite true 5 1)]
        ["name", "config_id", "start_at", "state", "cash_register_balance_start"]) ∧
    (Async.run (Server.answering []) (PuntoInicioApp.loadSession (some "-5")
        PuntoInicioApp.setup)).state.error ≠ some "No se proporcionó ID de sesión" := by
  decide

/-- C8.  When the parameter is read as a positive Number and the fetch for
that identifier succeeds with exactly one record, `loadSession` ends with
that very record as `state.session`, `loading = false` and `error`
untouched (still `null` after `setup`); the only new effect is the fetch,
so no notification is shown. -/
theorem loadSession_loaded (srv : Server) (param : Option String)
    (w : World PuntoInicioApp.State) (id : JSNumber) (record : SessionRecord)
    (hid : parseInt (toStringNullable param) = id) (hpos : id.isPositive = true)
    (hfetch : srv.searchRead "pos.session" [("id", "=", id)]
      ["name", "config_id", "start_at", "state", "cash_register_balance_start"] =
        .ok [record]) :
    Async.run srv (PuntoInicioApp.loadSession param w) =
      { state := { session := some record, loading := false, error := w.state.error },
        log := w.log ++ [.ormSearchRead "pos.session" [("id", "=", id)]
          ["name", "config_id", "start_at", "state", "cash_register_balance_start"]] } := by
  have hb : id.toBoolean = true := by
    cases id <;> simp_all [JSNumber.isPositive, JSNumber.toBoolean]
  simp only [PuntoInicioApp.loadSession, hid, hb, Async.run, PuntoInicioApp.sessionFields,
    hfetch, World.emit]

/-- C8 at the mount state with the parameter `42` and a backend holding
one record for it. -/
theorem loadSession_loaded_witness :
    Async.run
        (Server.answering [⟨.finite false 42 1, "POS/00042", some (.finite false 1 1, "Shop"),
          some "2024-01-01 08:00:00", "opened", .finite false 100 1⟩])
        (PuntoInicioApp.loadSession (some "42") PuntoInicioApp.setup) =
      { state :=
          { session := some ⟨.finite false 42 1, "POS/00042", some (.finite false 1 1, "Shop"),
              some "2024-01-01 08:00:00", "opened", .finite false 100 1⟩,
            loading := false, error := none },
        log := [.ormSearchRead "pos.session" [("id", "=", .finite false 42 1)]
          ["name", "config_id", "start_at", "state", "cash_register_balance_start"]] } :=
  loadSession_loaded _ (some "42") PuntoInicioApp.setup (.finite false 42 1) _ (by decide)
    (by decide) rfl

/-! ## `CashOpeningPopup.onCashAmountChange` and the amount invariant -/

theorem or_zero_eq (x : JSNumber) :
    (x ≠ JSNumber.nan → x.isZero = false → x.or JSNumber.zero = x) ∧
    ((x = JSNumber.nan ∨ x.isZero = true) → x.or JSNumber.zero = JSNumber.zero) ∧
    x.or JSNumber.zero ≠ JSNumber.nan ∧
    ((x.or JSNumber.zero).isZero = true → x.or JSNumber.zero = JSNumber.zero) := by
  cases x with
  | nan => simp [JSNumber.or, JSNumber.toBoolean, JSNumber.zero, JSNumber.isZero]
  | infinity negative => simp [JSNumber.or, JSNumber.toBoolean, JSNumber.zero, JSNumber.isZero]
  | finite negative numerator denominator =>
    by_cases h : numerator = 0 <;>
      simp [JSNumber.or, JSNumber.toBoolean, JSNumber.zero, JSNumber.isZero, h]

/-- C3, as amended.  For every raw input `onCashAmountChange` returns (it
is a total function: nothing in it can throw) a world whose `cashAmount` is
`parseFloat(value) || 0`: the Number `parseFloat` reads when that is neither
`NaN` nor a zero, and `0` otherwise, so that the amount stored is never
`NaN` and never `-0`.  Applying the handler again with the same input
changes nothing; notes, the submitting flag and the effect log are
untouched; white space before the input does not matter; the decimal
numeral of an integer `n` below `2^53` stores `n`.  What is read is the
longest leading decimal literal, text after it being ignored, and it may be
an infinity: `12.5` gives 12.5 and `abc` gives 0, and the other inputs
listed give what is shown. -/
theorem onCashAmountChange_spec (value : String) (w : World CashOpeningPopup.State) :
    (parseFloat value ≠ JSNumber.nan → (parseFloat value).isZero = false →
      (CashOpeningPopup.onCashAmountChange value w).state.cashAmount = parseFloat value) ∧
    ((parseFloat value = JSNumber.nan ∨ (parseFloat value).isZero = true) →
      (CashOpeningPopup.onCashAmountChange value w).state.cashAmount = JSNumber.zero) ∧
    (CashOpeningPopup.onCashAmountChange value w).state.cashAmount ≠ JSNumber.nan ∧
    (CashOpeningPopup.onCashAmountChange value w).state.cashAmount ≠ .finite true 0 1 ∧
    CashOpeningPopup.onCashAmountChange value (CashOpeningPopup.onCashAmountChange value w) =
      CashOpeningPopup.onCashAmountChange value w ∧
    (CashOpeningPopup.onCashAmountChange value w).state.notes = w.state.notes ∧
    (CashOpeningPopup.onCashAmountChange value w).state.loading = w.state.loading ∧
    (CashOpeningPopup.onCashAmountChange value w).log = w.log ∧
    (∀ ws : String, ws.toList.all isWhiteSpace = true →
      CashOpeningPopup.onCashAmountChange (ws ++ value) w =
        CashOpeningPopup.onCashAmountChange value w) ∧
    (∀ n : Nat, n < 2 ^ 53 →
      (CashOpeningPopup.onCashAmountChange (toString n) w).state.cashAmount =
        .finite false n 1) ∧
    (CashOpeningPopup.onCashAmountChange "12.5" w).state.cashAmount = .finite false 25 2 ∧
    (CashOpeningPopup.onCashAmountChange "abc" w).state.cashAmount = JSNumber.zero ∧
    (CashOpeningPopup.onCashAmountChange "" w).state.cashAmount = JSNumber.zero ∧
    (CashOpeningPopup.onCashAmountChange "\t 12.5" w).state.cashAmount = .finite false 25 2 ∧
    (CashOpeningPopup.onCashAmountChange
      "\n\x0b\x0c\r\u00a0\u1680\u2000\u200a\u2028\u2029\u202f\u205f\u3000\ufeff7"
      w).state.cashAmount = .finite false 7 1 ∧
    (CashOpeningPopup.onCashAmountChange "\u200b7" w).state.cashAmount = JSNumber.zero ∧
    (CashOpeningPopup.onCashAmountChange "+.5" w).state.cashAmount = .finite false 1 2 ∧
    (CashOpeningPopup.onCashAmountChange "5." w).state.cashAmount = .finite false 5 1 ∧
    (CashOpeningPopup.onCashAmountChange "100.0" w).state.cashAmount = .finite false 100 1 ∧
    (CashOpeningPopup.onCashAmountChange "1e3" w).state.cashAmount = .finite false 1000 1 ∧
    (CashOpeningPopup.onCashAmountChange "25E-1" w).state.cashAmount = .finite false 5 2 ∧
    (CashOpeningPopup.onCashAmountChange "2e+2x" w).state.cashAmount = .finite false 200 1 ∧
    (CashOpeningPopup.onCashAmountChange "7e" w).state.cashAmount = .finite false 7 1 ∧
    (CashOpeningPopup.onCashAmountChange "0.1" w).state.cashAmount =
      .finite false 3602879701896397 36028797018963968 ∧
    (CashOpeningPopup.onCashAmountChange "12abc" w).state.cashAmount = .finite false 12 1 ∧
    (CashOpeningPopup.onCashAmountChange "1,5" w).state.cashAmount = .finite false 1 1 ∧
    (CashOpeningPopup.onCashAmountChange "0x1A" w).state.cashAmount = JSNumber.zero ∧
    (CashOpeningPopup.onCashAmountChange "-5" w).state.cashAmount = .finite true 5 1 ∧
    (CashOpeningPopup.onCashAmountChange "-0" w).state.cashAmount = JSNumber.zero ∧
    (CashOpeningPopup.onCashAmountChange "Infinity" w).state.cashAmount = .infinity false ∧
    (CashOpeningPopup.onCashAmountChange "-Infinity" w).state.cashAmount = .infinity true ∧
    (CashOpeningPopup.onCashAmountChange "1e400" w).state.cashAmount = .infinity false ∧
    (CashOpeningPopup.onCashAmountChange "1e-400" w).state.cashAmount = JSNumber.zero ∧
    (CashOpeningPopup.onCashAmountChange "-1e-400" w).state.cashAmount = JSNumber.zero := by
  have hor := or_zero_eq (parseFloat value)
  have e₁ : (parseFloat "12.5").or JSNumber.zero = .finite false 25 2 := by decide
  have e₂ : (parseFloat "abc").or JSNumber.zero = JSNumber.zero := by decide
  have e₃ : (parseFloat "").or JSNumber.zero = JSNumber.zero := by decide
  have e₄ : (parseFloat "\t 12.5").or JSNumber.zero = .finite false 25 2 := by decide
  have e₂₃ : (parseFloat
      "\n\x0b\x0c\r\u00a0\u1680\u2000\u200a\u2028\u2029\u202f\u205f\u3000\ufeff7").or
      JSNumber.zero = .finite false 7 1 := by decide
  have e₂₄ : (parseFloat "\u200b7").or JSNumber.zero = JSNumber.zero := by decide
  have e₅ : (parseFloat "+.5").or JSNumber.zero = .finite false 1 2 := by decide
  have e₆ : (parseFloat "5.").or JSNumber.zero = .finite false 5 1 := by decide
  have e₇ : (parseFloat "100.0").or JSNumber.zero = .finite false 100 1 := by decide
  have e₈ : (parseFloat "1e3").or JSNumber.zero = .finite false 1000 1 := by decide
  have e₉ : (parseFloat "25E-1").or JSNumber.zero = .finite false 5 2 := by decide
  have e₁₀ : (parseFloat "2e+2x").or JSNumber.zero = .finite false 200 1 := by decide
  have e₁₁ : (parseFloat "7e").or JSNumber.zero = .finite false 7 1 := by decide
  have e₁₂ : (parseFloat "0.1").or JSNumber.zero =
      .finite false 3602879701896397 36028797018963968 := by decide
  have e₁₃ : (parseFloat "12abc").or JSNumber.zero = .finite false 12 1 := by decide
  have e₁₄ : (parseFloat "1,5").or JSNumber.zero = .finite false 1 1 := by decide
  have e₁₅ : (parseFloat "0x1A").or JSNumber.zero = JSNumber.zero := by decide
  have e₁₆ : (parseFloat "-5").or JSNumber.zero = .finite true 5 1 := by decide
  have e₁₇ : (parseFloat "-0").or JSNumber.zero = JSNumber.zero := by decide
  have e₁₈ : (parseFloat "Infinity").or JSNumber.zero = .infinity false := by decide
  have e₁₉ : (parseFloat "-Infinity").or JSNumber.zero = .infinity true := by decide
  have e₂₀ : (parseFloat "1e400").or JSNumber.zero = .infinity false := by decide
  have e₂₁ : (parseFloat "1e-400").or JSNumber.zero = JSNumber.zero := by decide
  have e₂₂ : (parseFloat "-1e-400").or JSNumber.zero = JSNumber.zero := by decide
  refine ⟨hor.1, hor.2.1, hor.2.2.1, ?_, rfl, rfl, rfl, rfl, ?_, ?_, e₁, e₂, e₃, e₄, e₂₃, e₂₄, e₅, e₆, e₇,
    e₈, e₉, e₁₀, e₁₁, e₁₂, e₁₃, e₁₄, e₁₅, e₁₆, e₁₇, e₁₈, e₁₉, e₂₀, e₂₁, e₂₂⟩
  · intro hneg
    have hz := hor.2.2.2 (by
      show ((parseFloat value).or JSNumber.zero).isZero = true
      have : (parseFloat value).or JSNumber.zero = .finite true 0 1 := hneg
      rw [this]; rfl)
    have : (parseFloat value).or JSNumber.zero = .finite true 0 1 := hneg
    rw [this] at hz
    exact absurd hz (by decide)
  · intro ws hws
    show ({ w with state := { w.state with
        cashAmount := (parseFloat (ws ++ value)).or JSNumber.zero } } : World _) = _
    rw [parseFloat_append_whiteSpace ws value hws]
    rfl
  · intro n hn
    show (parseFloat (toString n)).or JSNumber.zero = .finite false n 1
    rw [parseFloat_numeral n hn]
    by_cases h0 : n = 0
    · rw [h0]; rfl
    · simp [JSNumber.or, JSNumber.toBoolean, h0]

/-- C3 on a fresh popup: the input `-0` is read as the negative zero and
stored as 0; the input `3.25` is read and stored as 13/4. -/
theorem onCashAmountChange_spec_witness :
    parseFloat "-0" = .finite true 0 1 ∧
    (CashOpeningPopup.onCashAmountChange "-0" CashOpeningPopup.setup).state.cashAmount =
      JSNumber.zero ∧
    (CashOpeningPopup.onCashAmountChange "3.25" CashOpeningPopup.setup).state.cashAmount =
      .finite false 13 4 :=
  ⟨by decide,
    (onCashAmountChange_spec "-0" CashOpeningPopup.setup).2.1 (Or.inr (by decide)),
    ((onCashAmountChange_spec "3.25" CashOpeningPopup.setup).1 (by decide) (by decide)).trans
      (by decide)⟩

/-- C3 as stated fails: for the input `Infinity` the amount stored is the
Number Infinity, which is neither a decimal nor 0; and the inputs `12abc`
and `1,5`, which are not decimals, do not give 0 but 12 and 1. -/
theorem onCashAmountChange_not_decimal_counterexample :
    (CashOpeningPopup.onCashAmountChange "Infinity"
      CashOpeningPopup.setup).state.cashAmount = .infinity false ∧
    (CashOpeningPopup.onCashAmountChange "Infinity"
      CashOpeningPopup.setup).state.cashAmount.isFinite = false ∧
    (CashOpeningPopup.onCashAmountChange "Infinity"
      CashOpeningPopup.setup).state.cashAmount ≠ JSNumber.zero ∧
    "12abc".toList.all (fun c => isDecimalDigit c || c == '.') = false ∧
    (CashOpeningPopup.onCashAmountChange "12abc"
      CashOpeningPopup.setup).state.cashAmount = .finite false 12 1 ∧
    "1,5".toList.all (fun c => isDecimalDigit c || c == '.') = false ∧
    (CashOpeningPopup.onCashAmountChange "1,5"
      CashOpeningPopup.setup).state.cashAmount = .finite false 1 1 := by
  decide

theorem nonNegativeOpenings_append (l₁ l₂ : List Effect) :
    CashOpeningPopup.nonNegativeOpenings (l₁ ++ l₂) =
      (CashOpeningPopup.nonNegativeOpenings l₁ && CashOpeningPopup.nonNegativeOpenings l₂) := by
  simp [CashOpeningPopup.nonNegativeOpenings, List.all_append]

theorem confirm_keeps_amount (srv : Server) (props : CashOpeningPopup.Props)
    (w : World CashOpeningPopup.State) :
    (Async.run srv (CashOpeningPopup.confirm props w)).state.cashAmount = w.state.cashAmount ∧
    ∃ rest : List Effect,
      (Async.run srv (CashOpeningPopup.confirm props w)).log =
        w.log ++ .ormCall "pos.session" "set_cashbox_opening" [props.session_id]
          [("cashbox_start", .number w.state.cashAmount), ("notes", .string w.state.notes)]
          :: rest ∧
      CashOpeningPopup.nonNegativeOpenings rest = true := by
  simp only [CashOpeningPopup.confirm, Async.run]
  cases srv.call "pos.session" "set_cashbox_opening" [props.session_id]
      [("cashbox_start", .number w.state.cashAmount), ("notes", .string w.state.notes)] with
  | error e =>
    refine ⟨rfl, [.consoleError "Error al abrir sesión:" e,
      .notificationAdd ("Error al abrir la sesión: " ++ e.message) "danger"], ?_, ?_⟩
    · simp [Async.run, CashOpeningPopup.confirmCatch, World.emit]
    · simp [CashOpeningPopup.nonNegativeOpenings]
  | ok u =>
    simp only [Async.run]
    cases srv.call "pos.session" "action_pos_session_open" [props.session_id] [] with
    | error e =>
      refine ⟨rfl, [.ormCall "pos.session" "action_pos_session_open" [props.session_id] [],
        .consoleError "Error al abrir sesión:" e,
        .notificationAdd ("Error al abrir la sesión: " ++ e.message) "danger"], ?_, ?_⟩
      · simp [Async.run, CashOpeningPopup.confirmCatch, World.emit]
      · simp [CashOpeningPopup.nonNegativeOpenings]
    | ok u =>
      refine ⟨rfl, [.ormCall "pos.session" "action_pos_session_open" [props.session_id] [],
        .notificationAdd "Sesión iniciada correctamente" "success",
        .setLocation ("/punto_inicio/ui?session_id=" ++ numberToString props.session_id)],
        ?_, ?_⟩
      · simp [Async.run, World.emit]
      · simp [CashOpeningPopup.nonNegativeOpenings]

theorem not_isNegative_or_zero (x : JSNumber) (h : x.isNegative = false) :
    (x.or JSNumber.zero).isNonNegative = true := by
  cases x with
  | nan => decide
  | infinity negative =>
    simpa [JSNumber.or, JSNumber.toBoolean, JSNumber.isNonNegative, JSNumber.isNegative] using h
  | finite negative numerator denominator =>
    by_cases hn : numerator = 0
    · simp [JSNumber.or, JSNumber.toBoolean, JSNumber.isNonNegative, JSNumber.zero, hn]
    · simp only [JSNumber.isNegative, Bool.and_eq_false_imp] at h
      cases negative with
      | false => simp [JSNumber.or, JSNumber.toBoolean, JSNumber.isNonNegative, hn]
      | true => simp [hn] at h

theorem apply_preserves_nonNegative (props : CashOpeningPopup.Props) (op : CashOpeningPopup.Op)
    (w : World CashOpeningPopup.State) (hop : CashOpeningPopup.noNegativeInput [op] = true)
    (hw : w.state.cashAmount.isNonNegative = true ∧
      CashOpeningPopup.nonNegativeOpenings w.log = true) :
    (op.apply props w).state.cashAmount.isNonNegative = true ∧
      CashOpeningPopup.nonNegativeOpenings (op.apply props w).log = true := by
  cases op with
  | cashAmountChange value =>
    have hm : (parseFloat value).isNegative = false := by
      simpa [CashOpeningPopup.noNegativeInput] using hop
    exact ⟨not_isNegative_or_zero _ hm, hw.2⟩
  | notesChange value => exact hw
  | confirm srv =>
    obtain ⟨hamount, rest, hlog, hrest⟩ := confirm_keeps_amount srv props w
    refine ⟨?_, ?_⟩
    · show (Async.run srv (CashOpeningPopup.confirm props w)).state.cashAmount.isNonNegative = true
      rw [hamount]
      exact hw.1
    · show CashOpeningPopup.nonNegativeOpenings
        (Async.run srv (CashOpeningPopup.confirm props w)).log = true
      rw [hlog, nonNegativeOpenings_append, hw.2, ← List.singleton_append,
        nonNegativeOpenings_append, hrest]
      simp [CashOpeningPopup.nonNegativeOpenings, CashOpeningPopup.nonNegativeStart, hw.1]
  | cancel =>
    refine ⟨hw.1, ?_⟩
    show CashOpeningPopup.nonNegativeOpenings (w.log ++ [Effect.propsClose]) = true
    rw [nonNegativeOpenings_append, hw.2]
    rfl

theorem runOps_preserves_nonNegative (props : CashOpeningPopup.Props)
    (ops : List CashOpeningPopup.Op) :
    ∀ w : World CashOpeningPopup.State, CashOpeningPopup.noNegativeInput ops = true →
      (w.state.cashAmount.isNonNegative = true ∧
        CashOpeningPopup.nonNegativeOpenings w.log = true) →
      (CashOpeningPopup.runOps props ops w).state.cashAmount.isNonNegative = true ∧
        CashOpeningPopup.nonNegativeOpenings (CashOpeningPopup.runOps props ops w).log = true := by
  induction ops with
  | nil => intro w _ hw; exact hw
  | cons op ops ih =>
    intro w hops hw
    have hsplit : CashOpeningPopup.noNegativeInput [op] = true ∧
        CashOpeningPopup.noNegativeInput ops = true := by
      simpa [CashOpeningPopup.noNegativeInput] using hops
    exact ih (op.apply props w) hsplit.2 (apply_preserves_nonNegative props op w hsplit.1 hw)

theorem isNegative_or_zero (x : JSNumber) (h : x.isNegative = true) :
    x.or JSNumber.zero = x := by
  cases x with
  | nan => exact absurd h (by decide)
  | infinity negative => rfl
  | finite negative numerator denominator =>
    have hn : numerator ≠ 0 := by
      intro h0
      simp [JSNumber.isNegative, h0] at h
    simp [JSNumber.or, JSNumber.toBoolean, hn]

/-- C4, as amended.  `cashAmount` is 0 after `setup`, and after any sequence
of `onCashAmountChange`, `onNotesChange`, `confirm` and `cancel` in which no
typed amount is read by `parseFloat` as a Number below zero it is a Number
`>= 0`, and every `set_cashbox_opening` request sent so far carries a
`cashbox_start >= 0`.  An amount that is read as a Number below zero, as
is a minus sign followed by the numeral of a positive integer below `2^53`,
is stored as that Number, and a `confirm()` that follows sends it as
`cashbox_start`. -/
theorem cashAmount_nonNegative_of_no_negative_input (props : CashOpeningPopup.Props)
    (ops : List CashOpeningPopup.Op) (h : CashOpeningPopup.noNegativeInput ops = true) :
    CashOpeningPopup.setup.state.cashAmount = JSNumber.zero ∧
    (CashOpeningPopup.runOps props ops CashOpeningPopup.setup).state.cashAmount.isNonNegative
      = true ∧
    CashOpeningPopup.nonNegativeOpenings
      (CashOpeningPopup.runOps props ops CashOpeningPopup.setup).log = true ∧
    (∀ n : Nat, 0 < n → n < 2 ^ 53 →
      parseFloat ("-" ++ toString n) = .finite true n 1 ∧
      (parseFloat ("-" ++ toString n)).isNegative = true) ∧
    (∀ (value : String) (srv : Server) (w : World CashOpeningPopup.State),
      (parseFloat value).isNegative = true →
      (CashOpeningPopup.onCashAmountChange value w).state.cashAmount = parseFloat value ∧
      ∃ rest : List Effect,
        (Async.run srv (CashOpeningPopup.confirm props
            (CashOpeningPopup.onCashAmountChange value w))).log =
          w.log ++ .ormCall "pos.session" "set_cashbox_opening" [props.session_id]
            [("cashbox_start", .number (parseFloat value)), ("notes", .string w.state.notes)]
            :: rest) := by
  refine ⟨rfl, (runOps_preserves_nonNegative props ops CashOpeningPopup.setup h ⟨rfl, rfl⟩).1,
    (runOps_preserves_nonNegative props ops CashOpeningPopup.setup h ⟨rfl, rfl⟩).2, ?_, ?_⟩
  · intro n h₀ hn
    rw [parseFloat_minus_numeral n hn]
    exact ⟨rfl, by simpa [JSNumber.isNegative] using Nat.pos_iff_ne_zero.mp h₀⟩
  intro value srv w hneg
  have hstore : (CashOpeningPopup.onCashAmountChange value w).state.cashAmount =
      parseFloat value := isNegative_or_zero _ hneg
  refine ⟨hstore, ?_⟩
  obtain ⟨-, rest, hlog, -⟩ :=
    confirm_keeps_amount srv props (CashOpeningPopup.onCashAmountChange value w)
  rw [hstore] at hlog
  exact ⟨rest, hlog⟩

/-- C4 on a session of use in which amounts with a minus sign are typed
that are not read as Numbers below zero (`-abc`, `-0`, `-1e-400`), with
notes, a successful confirmation and a cancellation. -/
theorem cashAmount_nonNegative_of_no_negative_input_witness :
    CashOpeningPopup.noNegativeInput
      [.cashAmountChange "-abc", .cashAmountChange "-0", .cashAmountChange "-1e-400",
        .cashAmountChange " +12.5", .notesChange "initial",
        .confirm (Server.answering []), .cancel] = true ∧
    (CashOpeningPopup.runOps ⟨.finite false 42 1⟩
      [.cashAmountChange "-abc", .cashAmountChange "-0", .cashAmountChange "-1e-400",
        .cashAmountChange " +12.5", .notesChange "initial",
        .confirm (Server.answering []), .cancel]
      CashOpeningPopup.setup).state.cashAmount.isNonNegative = true :=
  ⟨by decide,
    (cashAmount_nonNegative_of_no_negative_input ⟨.finite false 42 1⟩
      [.cashAmountChange "-abc", .cashAmountChange "-0", .cashAmountChange "-1e-400",
        .cashAmountChange " +12.5", .notesChange "initial",
        .confirm (Server.answering []), .cancel] (by decide)).2.1⟩

/-- C4 as stated fails: typing `-5` makes `cashAmount` the negative number
-5, and a `confirm()` that follows sends `cashbox_start = -5`. -/
theorem cashAmount_negative_counterexample :
    (CashOpeningPopup.runOps ⟨.finite false 42 1⟩ [.cashAmountChange "-5"]
      CashOpeningPopup.setup).state.cashAmount = .finite true 5 1 ∧
    (CashOpeningPopup.runOps ⟨.finite false 42 1⟩ [.cashAmountChange "-5"]
      CashOpeningPopup.setup).state.cashAmount.isNegative = true ∧
    (CashOpeningPopup.runOps ⟨.finite false 42 1⟩ [.cashAmountChange "-5"]
      CashOpeningPopup.setup).state.cashAmount.isNonNegative = false ∧
    (CashOpeningPopup.runOps ⟨.finite false 42 1⟩
      [.cashAmountChange "-5", .confirm (Server.answering [])]
      CashOpeningPopup.setup).log.head? =
      some (.ormCall "pos.session" "set_cashbox_opening" [.finite false 42 1]
        [("cashbox_start", .number (.finite true 5 1)), ("notes", .string "")]) := by
  decide

/-! ## `CashOpeningPopup.confirm` -/

theorem numberToString_of_safe_integer (n : Nat) (h₀ : 0 < n) (h : n < 2 ^ 53) :
    numberToString (.finite false n 1) = toString n := by
  have hn : n ≠ 0 := Nat.pos_iff_ne_zero.mp h₀
  simp only [numberToString, hn, if_false, positiveToString_integer n h₀ h]
  rfl

/-- C5.  When the backend accepts both calls, the effects `confirm()` adds
are exactly, in this order: `set_cashbox_opening` on the session with
`cashbox_start = cashAmount` and `notes = notes`, `action_pos_session_open`
on the same session, the success notification, and the navigation to
`/punto_inicio/ui?session_id=` followed by the session identifier as
Number::toString prints it.  The method is suspended twice: while the first
call is in flight the second has not been issued.  For a session identifier
that is a positive integer `n` below `2^53`, both calls carry `n` and the
address navigated to is `/punto_inicio/ui?session_id=` followed by the
decimal numeral of `n`.  Other identifiers are printed as listed. -/
theorem confirm_happy_path (srv : Server) (props : CashOpeningPopup.Props)
    (w : World CashOpeningPopup.State)
    (hset : srv.call "pos.session" "set_cashbox_opening" [props.session_id]
      [("cashbox_start", .number w.state.cashAmount), ("notes", .string w.state.notes)] =
        .ok ())
    (hopen : srv.call "pos.session" "action_pos_session_open" [props.session_id] [] = .ok ()) :
    (Async.run srv (CashOpeningPopup.confirm props w)).log =
      w.log ++
        [.ormCall "pos.session" "set_cashbox_opening" [props.session_id]
            [("cashbox_start", .number w.state.cashAmount), ("notes", .string w.state.notes)],
          .ormCall "pos.session" "action_pos_session_open" [props.session_id] [],
          .notificationAdd "Sesión iniciada correctamente" "success",
          .setLocation ("/punto_inicio/ui?session_id=" ++ numberToString props.session_id)] ∧
    (Async.suspended srv (CashOpeningPopup.confirm props w)).map World.log =
      [w.log ++
          [.ormCall "pos.session" "set_cashbox_opening" [props.session_id]
            [("cashbox_start", .number w.state.cashAmount), ("notes", .string w.state.notes)]],
        w.log ++
          [.ormCall "pos.session" "set_cashbox_opening" [props.session_id]
            [("cashbox_start", .number w.state.cashAmount), ("notes", .string w.state.notes)],
          .ormCall "pos.session" "action_pos_session_open" [props.session_id] []]] ∧
    (∀ n : Nat, 0 < n → n < 2 ^ 53 → props.session_id = .finite false n 1 →
      (Async.run srv (CashOpeningPopup.confirm props w)).log =
        w.log ++
          [.ormCall "pos.session" "set_cashbox_opening" [.finite false n 1]
              [("cashbox_start", .number w.state.cashAmount),
                ("notes", .string w.state.notes)],
            .ormCall "pos.session" "action_pos_session_open" [.finite false n 1] [],
            .notificationAdd "Sesión iniciada correctamente" "success",
            .setLocation ("/punto_inicio/ui?session_id=" ++ toString n)]) ∧
    (numberToString (.finite false 42 1) = "42" ∧
      numberToString (.finite true 5 1) = "-5" ∧
      numberToString (.finite false 3 2) = "1.5" ∧
      numberToString (.finite false 0 1) = "0" ∧ numberToString (.finite true 0 1) = "0" ∧
      numberToString JSNumber.nan = "NaN" ∧
      numberToString (.infinity true) = "-Infinity" ∧
      numberToString (parseFloat "0.1") = "0.1" ∧
      numberToString (parseFloat "0.000001") = "0.000001" ∧
      numberToString (parseFloat "1e-7") = "1e-7" ∧
      numberToString (parseFloat "123456.789e3") = "123456789" ∧
      numberToString (parseFloat "9007199254740993") = "9007199254740992" ∧
      numberToString (parseFloat "18446744073709551616") = "18446744073709552000" ∧
      numberToString (parseFloat "1e21") = "1e+21" ∧
      numberToString (parseFloat "1.25e+30") = "1.25e+30") := by
  have hlog : (Async.run srv (CashOpeningPopup.confirm props w)).log =
      w.log ++
        [.ormCall "pos.session" "set_cashbox_opening" [props.session_id]
            [("cashbox_start", .number w.state.cashAmount), ("notes", .string w.state.notes)],
          .ormCall "pos.session" "action_pos_session_open" [props.session_id] [],
          .notificationAdd "Sesión iniciada correctamente" "success",
          .setLocation ("/punto_inicio/ui?session_id=" ++ numberToString props.session_id)] := by
    simp [CashOpeningPopup.confirm, Async.run, hset, hopen, World.emit]
  refine ⟨hlog, ?_, ?_, by decide⟩
  · simp [CashOpeningPopup.confirm, Async.suspended, hset, hopen, World.emit]
  · intro n h₀ hn hid
    rw [hlog, hid, numberToString_of_safe_integer n h₀ hn]

/-- C5 on session 42 with the amount `100.0` and the notes `initial` typed
into a fresh popup. -/
theorem confirm_happy_path_witness :
    (Async.run (Server.answering [])
      (CashOpeningPopup.confirm ⟨.finite false 42 1⟩
        (CashOpeningPopup.onNotesChange "initial"
          (CashOpeningPopup.onCashAmountChange "100.0" CashOpeningPopup.setup)))).log =
      [.ormCall "pos.session" "set_cashbox_opening" [.finite false 42 1]
          [("cashbox_start", .number (.finite false 100 1)), ("notes", .string "initial")],
        .ormCall "pos.session" "action_pos_session_open" [.finite false 42 1] [],
        .notificationAdd "Sesión iniciada correctamente" "success",
        .setLocation "/punto_inicio/ui?session_id=42"] :=
  ((confirm_happy_path (Server.answering []) ⟨.finite false 42 1⟩
    (CashOpeningPopup.onNotesChange "initial"
      (CashOpeningPopup.onCashAmountChange "100.0" CashOpeningPopup.setup)) rfl rfl).2.2.1
    42 (by decide) (by decide) rfl).trans (by decide)

/-- C6.  When the backend rejects `set_cashbox_opening` with `error`, or
accepts it and rejects `action_pos_session_open` with `error`, `confirm()`
finishes with `loading = false` and `cashAmount` and `notes` as they were;
after the calls it issued, its only effects are the console message and one
danger notification whose text ends with `error.message`: no success
notification and no navigation.  The calls issued are
`set_cashbox_opening` alone when it is the one rejected, and both calls
otherwise. -/
theorem confirm_failure_path (srv : Server) (props : CashOpeningPopup.Props)
    (w : World CashOpeningPopup.State) (error : JSError)
    (h : srv.call "pos.session" "set_cashbox_opening" [props.session_id]
        [("cashbox_start", .number w.state.cashAmount), ("notes", .string w.state.notes)] =
          .error error ∨
      (srv.call "pos.session" "set_cashbox_opening" [props.session_id]
        [("cashbox_start", .number w.state.cashAmount), ("notes", .string w.state.notes)] =
          .ok () ∧
        srv.call "pos.session" "action_pos_session_open" [props.session_id] [] =
          .error error)) :
    (Async.run srv (CashOpeningPopup.confirm props w)).state =
      { cashAmount := w.state.cashAmount, notes := w.state.notes, loading := false } ∧
    ∃ calls : List Effect,
      (Async.run srv (CashOpeningPopup.confirm props w)).log =
        w.log ++ calls ++
          [.consoleError "Error al abrir sesión:" error,
            .notificationAdd ("Error al abrir la sesión: " ++ error.message) "danger"] ∧
      (srv.call "pos.session" "set_cashbox_opening" [props.session_id]
          [("cashbox_start", .number w.state.cashAmount), ("notes", .string w.state.notes)] =
            .error error →
        calls = [.ormCall "pos.session" "set_cashbox_opening" [props.session_id]
          [("cashbox_start", .number w.state.cashAmount),
            ("notes", .string w.state.notes)]]) ∧
      (srv.call "pos.session" "set_cashbox_opening" [props.session_id]
          [("cashbox_start", .number w.state.cashAmount), ("notes", .string w.state.notes)] =
            .ok () →
        calls = [.ormCall "pos.session" "set_cashbox_opening" [props.session_id]
            [("cashbox_start", .number w.state.cashAmount), ("notes", .string w.state.notes)],
          .ormCall "pos.session" "action_pos_session_open" [props.session_id] []]) := by
  rcases h with h | ⟨hset, hopen⟩
  · refine ⟨?_, [.ormCall "pos.session" "set_cashbox_opening" [props.session_id]
      [("cashbox_start", .number w.state.cashAmount), ("notes", .string w.state.notes)]],
      ?_, fun _ => rfl, fun hok => ?_⟩
    · simp [CashOpeningPopup.confirm, Async.run, h, CashOpeningPopup.confirmCatch, World.emit]
    · simp [CashOpeningPopup.confirm, Async.run, h, CashOpeningPopup.confirmCatch, World.emit]
    · rw [h] at hok
      exact absurd hok (by simp)
  · refine ⟨?_, [.ormCall "pos.session" "set_cashbox_opening" [props.session_id]
        [("cashbox_start", .number w.state.cashAmount), ("notes", .string w.state.notes)],
      .ormCall "pos.session" "action_pos_session_open" [props.session_id] []],
      ?_, fun herr => ?_, fun _ => rfl⟩
    · simp [CashOpeningPopup.confirm, Async.run, hset, hopen, CashOpeningPopup.confirmCatch,
        World.emit]
    · simp [CashOpeningPopup.confirm, Async.run, hset, hopen, CashOpeningPopup.confirmCatch,
        World.emit]
    · rw [hset] at herr
      exact absurd herr (by simp)

/-- C6 on session 42 with the amount `100.0` and the notes `initial`, the
open call being rejected. -/
theorem confirm_failure_path_witness :
    (Async.run (Server.rejecting "action_pos_session_open" ⟨"ServiceFailure"⟩)
      (CashOpeningPopup.confirm ⟨.finite false 42 1⟩
        ⟨⟨.finite false 100 1, "initial", false⟩, []⟩)).state =
      { cashAmount := .finite false 100 1, notes := "initial", loading := false } ∧
    (Async.run (Server.rejecting "action_pos_session_open" ⟨"ServiceFailure"⟩)
      (CashOpeningPopup.confirm ⟨.finite false 42 1⟩
        ⟨⟨.finite false 100 1, "initial", false⟩, []⟩)).log =
      [.ormCall "pos.session" "set_cashbox_opening" [.finite false 42 1]
          [("cashbox_start", .number (.finite false 100 1)), ("notes", .string "initial")],
        .ormCall "pos.session" "action_pos_session_open" [.finite false 42 1] [],
        .consoleError "Error al abrir sesión:" ⟨"ServiceFailure"⟩,
        .notificationAdd "Error al abrir la sesión: ServiceFailure" "danger"] :=
  have h := confirm_failure_path
    (Server.rejecting "action_pos_session_open" ⟨"ServiceFailure"⟩) ⟨.finite false 42 1⟩
    ⟨⟨.finite false 100 1, "initial", false⟩, []⟩ ⟨"ServiceFailure"⟩
    (Or.inr ⟨rfl, rfl⟩)
  ⟨h.1, by
    obtain ⟨calls, hlog, -, hcalls⟩ := h.2
    rw [hlog, hcalls rfl]
    decide⟩

/-- C7, as amended.  `confirm()` sets `loading` to true before it issues its
first call and writes it again only in its failure path, to false.  So the
flag is true in every world the page goes through while the method is
suspended on a call, provided the handlers that run meanwhile do not turn
the flag off; `onCashAmountChange`, `onNotesChange` and `cancel` leave it as
it is, the failure path of another `confirm()` turns it off.  The method never reads the flag:
whatever the flag was, the first thing it does is issue
`set_cashbox_opening`, and on a draft whose flag is already true it behaves
exactly as on the same draft with the flag false. -/
theorem confirm_sets_flag_without_reading_it (srv : Server) (props : CashOpeningPopup.Props)
    (w : World CashOpeningPopup.State)
    (other : World CashOpeningPopup.State → World CashOpeningPopup.State)
    (hother : ∀ v, v.state.loading = true → (other v).state.loading = true) :
    (∀ w' ∈ Async.suspendedAmid srv other (CashOpeningPopup.confirm props w),
      w'.state.loading = true) ∧
    (∃ k, CashOpeningPopup.confirm props w =
      .awaitCall { w with state := { w.state with loading := true } }
        "pos.session" "set_cashbox_opening" [props.session_id]
        [("cashbox_start", .number w.state.cashAmount), ("notes", .string w.state.notes)] k) ∧
    CashOpeningPopup.confirm props { w with state := { w.state with loading := true } } =
      CashOpeningPopup.confirm props { w with state := { w.state with loading := false } } ∧
    (∀ (value : String) (v : World CashOpeningPopup.State),
      (CashOpeningPopup.onCashAmountChange value v).state.loading = v.state.loading ∧
      (CashOpeningPopup.onNotesChange value v).state.loading = v.state.loading ∧
      (CashOpeningPopup.cancel v).state.loading = v.state.loading) ∧
    (∀ (error : JSError) (v : World CashOpeningPopup.State),
      (CashOpeningPopup.confirmCatch error v).state.loading = false) := by
  refine ⟨?_, ⟨_, rfl⟩, rfl, fun _ _ => ⟨rfl, rfl, rfl⟩, fun _ _ => rfl⟩
  intro w' hw'
  simp only [CashOpeningPopup.confirm, Async.suspendedAmid] at hw'
  rcases List.mem_cons.mp hw' with rfl | hw'
  · rfl
  rcases List.mem_cons.mp hw' with rfl | hw'
  · exact hother _ rfl
  cases hset : srv.call "pos.session" "set_cashbox_opening" [props.session_id]
      [("cashbox_start", .number w.state.cashAmount), ("notes", .string w.state.notes)] with
  | error e =>
    rw [hset] at hw'
    simp only [Async.suspendedAmid] at hw'
    exact absurd hw' (List.not_mem_nil _)
  | ok u =>
    rw [hset] at hw'
    simp only [Async.suspendedAmid] at hw'
    rcases List.mem_cons.mp hw' with rfl | hw'
    · exact hother _ rfl
    rcases List.mem_cons.mp hw' with rfl | hw'
    · exact hother _ (hother _ rfl)
    cases hopen : srv.call "pos.session" "action_pos_session_open" [props.session_id] [] with
    | error e =>
      rw [hopen] at hw'
      simp only [Async.suspendedAmid] at hw'
      exact absurd hw' (List.not_mem_nil _)
    | ok u =>
      rw [hopen] at hw'
      simp only [Async.suspendedAmid] at hw'
      exact absurd hw' (List.not_mem_nil _)

/-- C7 on session 42, the user typing notes while each call is in flight:
the flag is true in each of the four worlds the page goes through. -/
theorem confirm_sets_flag_without_reading_it_witness :
    (Async.suspendedAmid (Server.answering []) (CashOpeningPopup.onNotesChange "late")
      (CashOpeningPopup.confirm ⟨.finite false 42 1⟩ CashOpeningPopup.setup)).map
        (fun v => v.state.loading) = [true, true, true, true] := by
  have h := (confirm_sets_flag_without_reading_it (Server.answering [])
    ⟨.finite false 42 1⟩ CashOpeningPopup.setup (CashOpeningPopup.onNotesChange "late")
    (fun _ h => h)).1
  have hlen : (Async.suspendedAmid (Server.answering [])
      (CashOpeningPopup.onNotesChange "late")
      (CashOpeningPopup.confirm ⟨.finite false 42 1⟩ CashOpeningPopup.setup)).length = 4 := by
    decide
  apply List.ext_get
  · simpa using hlen
  · intro i h₁ h₂
    simp only [List.get_eq_getElem, List.getElem_map]
    rw [h _ (List.getElem_mem _)]
    simp only [List.length_cons, List.length_nil] at h₂
    interval_cases i <;> rfl

/-- C7 as stated fails: `confirm()` on a draft whose `loading` flag is
already true sends both calls to the backend again.  So a second
`confirm()` can start while the call of a first one is in flight, and when
the first is then rejected its failure path sets the flag to false while
the call of the second is still in flight. -/
theorem confirm_reentrant_counterexample :
    (Async.run (Server.answering [])
      (CashOpeningPopup.confirm ⟨.finite false 42 1⟩
        ⟨⟨.finite false 100 1, "initial", true⟩, []⟩)).log =
      [.ormCall "pos.session" "set_cashbox_opening" [.finite false 42 1]
          [("cashbox_start", .number (.finite false 100 1)), ("notes", .string "initial")],
        .ormCall "pos.session" "action_pos_session_open" [.finite false 42 1] [],
        .notificationAdd "Sesión iniciada correctamente" "success",
        .setLocation "/punto_inicio/ui?session_id=42"] ∧
    ((Async.issued (CashOpeningPopup.confirm ⟨.finite false 42 1⟩
        ⟨⟨.finite false 100 1, "initial", false⟩, []⟩)).bind fun w₁ =>
      (Async.issued (CashOpeningPopup.confirm ⟨.finite false 42 1⟩ w₁)).map fun w₂ =>
        (w₁.state.loading, w₂.log.length,
          (Async.run (Server.answering [])
            (Async.resumeCall (.error ⟨"ServiceFailure"⟩) w₂
              (CashOpeningPopup.confirm ⟨.finite false 42 1⟩
                ⟨⟨.finite false 100 1, "initial", false⟩, []⟩))).state.loading)) =
      some (true, 2, false) := by
  decide

/-! ## `PuntoInicioApp.closeSession` -/

/-- C9.  When the user declines the prompt, `closeSession()` finishes at
once: the state (session, loading, error) is unchanged and the prompt is
its only effect, so there is no request, no notification and no navigation. -/
theorem closeSession_declined (srv : Server) (windowConfirm : String → Bool)
    (w : World PuntoInicioApp.State)
    (h : windowConfirm PuntoInicioApp.closePrompt = false) :
    Async.run srv (PuntoInicioApp.closeSession windowConfirm w) =
      { state := w.state,
        log := w.log ++
          [.windowConfirm "¿Estás seguro de que deseas cerrar esta sesión?"] } ∧
    Async.suspended srv (PuntoInicioApp.closeSession windowConfirm w) = [] := by
  have h' : windowConfirm "¿Estás seguro de que deseas cerrar esta sesión?" = false := h
  simp [PuntoInicioApp.closeSession, h', Async.run, Async.suspended, World.emit,
    PuntoInicioApp.closePrompt]

/-- C9 on a loaded session 42 and a user who declines. -/
theorem closeSession_declined_witness :
    (Async.run (Server.answering [])
      (PuntoInicioApp.closeSession (fun _ => false)
        ⟨⟨some ⟨.finite false 42 1, "POS/00042", none, none, "opened", JSNumber.zero⟩,
          false, none⟩, []⟩)).state =
      ⟨some ⟨.finite false 42 1, "POS/00042", none, none, "opened", JSNumber.zero⟩,
        false, none⟩ ∧
    (Async.run (Server.answering [])
      (PuntoInicioApp.closeSession (fun _ => false)
        ⟨⟨some ⟨.finite false 42 1, "POS/00042", none, none, "opened", JSNumber.zero⟩,
          false, none⟩, []⟩)).log.any
        (fun e => e.isRemoteCall || e.isNavigation || e.isNotification "danger" ||
          e.isNotification "success") = false :=
  have h := (closeSession_declined (Server.answering []) (fun _ => false)
    ⟨⟨some ⟨.finite false 42 1, "POS/00042", none, none, "opened", JSNumber.zero⟩,
      false, none⟩, []⟩ rfl).1
  ⟨by rw [h], by rw [h]; decide⟩

/-- C10.  When no session is loaded (`state.session` is `null`) and the
user accepts the prompt, `closeSession()` finishes without suspending: the
state is unchanged, nothing is sent to the backend, and after the prompt
its effects are the console message and exactly one danger notification,
both carrying the TypeError of the failed read of `session.id`; there is no
navigation. -/
theorem closeSession_without_session (srv : Server) (windowConfirm : String → Bool)
    (w : World PuntoInicioApp.State) (hnull : w.state.session = none)
    (haccept : windowConfirm PuntoInicioApp.closePrompt = true) :
    Async.run srv (PuntoInicioApp.closeSession windowConfirm w) =
      { state := w.state,
        log := w.log ++
          [.windowConfirm "¿Estás seguro de que deseas cerrar esta sesión?",
            .consoleError "Error al cerrar sesión:" PuntoInicioApp.nullIdError,
            .notificationAdd
              ("Error al cerrar la sesión: " ++ PuntoInicioApp.nullIdError.message) "danger"] } ∧
    Async.suspended srv (PuntoInicioApp.closeSession windowConfirm w) = [] := by
  have h' : windowConfirm "¿Estás seguro de que deseas cerrar esta sesión?" = true := haccept
  simp [PuntoInicioApp.closeSession, h', hnull, Async.run, Async.suspended, World.emit,
    PuntoInicioApp.closePrompt, PuntoInicioApp.closeSessionCatch]

/-- C10 on the mount state (Loading) and a user who accepts. -/
theorem closeSession_without_session_witness :
    (Async.run (Server.answering [])
      (PuntoInicioApp.closeSession (fun _ => true) PuntoInicioApp.setup)).state =
      PuntoInicioApp.setup.state ∧
    ((Async.run (Server.answering [])
      (PuntoInicioApp.closeSession (fun _ => true) PuntoInicioApp.setup)).log.filter
        (fun e => e.isNotification "danger")).length = 1 ∧
    (Async.run (Server.answering [])
      (PuntoInicioApp.closeSession (fun _ => true) PuntoInicioApp.setup)).log.any
        (fun e => e.isRemoteCall || e.isNavigation) = false :=
  have h := (closeSession_without_session (Server.answering []) (fun _ => true)
    PuntoInicioApp.setup rfl rfl).1
  ⟨by rw [h], by rw [h]; decide, by rw [h]; decide⟩

end PuntoInicio
